import Mathlib

/-!
Verification of the scoring/estimation pipeline of the `pe-org-air-platform`
repository against its natural-language specification.

The Python sources are shallowly embedded: Python `float` arithmetic is
modelled by exact rational (`ℚ`) arithmetic, except where the source takes
square roots (`x ** 0.5`), which forces the reals (`ℝ`, `Real.sqrt`).
Python `dict`s (whose iteration order is insertion order) are modelled by
association lists in insertion order.  Fields of result records that only
carry human-readable log strings (`reasons`, `rationale`, `reason`) are
omitted from the embedded structures; every field that feeds a number or a
branch downstream is kept.  `Decimal(str(round(x, n)))` and `round(x, n)`
are modelled by exact round-half-to-even at `n` decimal digits.
-/

namespace OrgAir

/-- Embedding of the `clamp(x, lo, hi) = max(lo, min(hi, x))` helper that is
repeated in `rubric_scorer.py`, `vr_model.py`, `synergy.py`, `composite.py`,
`talent_penalty.py`, `sem_confidence.py` and `app/scoring/utils.py`. -/
def clamp {α : Type} [LinearOrder α] (x lo hi : α) : α := max lo (min hi x)

/-- Round to the nearest integer, ties to even: the rounding mode of Python's
built-in `round`.  Used to model `round(x, n)` via `roundTo`. -/
def rne {α : Type} [LinearOrderedField α] [FloorRing α] (q : α) : ℤ :=
  if q - ⌊q⌋ < 1/2 then ⌊q⌋
  else if 1/2 < q - ⌊q⌋ then ⌊q⌋ + 1
  else if ⌊q⌋ % 2 = 0 then ⌊q⌋ else ⌊q⌋ + 1

/-- Model of Python `round(q, d)` where `s = 10 ^ d`: round half to even at
`d` decimal digits. -/
def roundTo {α : Type} [LinearOrderedField α] [FloorRing α] (s : ℕ) (q : α) : α :=
  ((rne (q * (s : α)) : α)) / (s : α)

/-- Lookup with default, modelling Python `dict.get(k, d)` over an
association list. -/
def getD {α : Type} (l : List (String × α)) (k : String) (d : α) : α :=
  (List.lookup k l).getD d

/-- ASCII model of Python `str.lower()` (all evidence keywords and bucket
names in the embedded tables are ASCII). -/
def lower (s : String) : String := String.mk (s.data.map Char.toLower)

/-- Word characters of the regex `\b` boundary (`[A-Za-z0-9_]`; the embedded
keyword tables are ASCII, so the ASCII reading of `\w` suffices). -/
def is_word_char (c : Char) : Bool := c.isAlphanum || c == '_'

/-- Whether position `i` of `t` holds a word character (`false` past the
end). -/
def wchar_at (t : List Char) (i : ℕ) : Bool :=
  match t[i]? with
  | some c => is_word_char c
  | none => false

/-- The regex word boundary `\b` between positions `i - 1` and `i` of `t`. -/
def bnd (t : List Char) (i : ℕ) : Bool :=
  (if i = 0 then false else wchar_at t (i - 1)) != wchar_at t i

/-- Whether `p` occurs in `t` starting at position `i`. -/
def substr_at (t p : List Char) (i : ℕ) : Bool :=
  ((t.drop i).take p.length) == p

/-- Model of Python `p in t` (plain substring containment, used by the
evidence-mapper keyword scan). -/
def contains_sub (t p : List Char) : Bool :=
  (List.range (t.length + 1)).any (fun i => substr_at t p i)

/-- Model of `re.search(r"\b" + re.escape(p) + r"\b", t)`: `p` occurs at a
position flanked by word boundaries. -/
def regex_word_search (t p : List Char) : Bool :=
  (List.range (t.length + 1)).any
    (fun i => substr_at t p i && bnd t i && bnd t (i + p.length))

/-- Model of Python `" ".join(l)`. -/
def join_space (l : List String) : String :=
  String.mk (((l.map String.data).intersperse [' ']).flatten)

/-- The canonical 7 dimensions (`DIMENSIONS` in
`app/scoring_engine/evidence_mapper.py` and `mapping_config.py`). -/
def DIMENSIONS : List String :=
  ["data_infrastructure", "ai_governance", "technology_stack", "talent_skills",
   "leadership_vision", "use_case_portfolio", "culture_change"]

namespace TalentConcentration

/-- Embedding of `compute_hhi` from `app/scoring/talent_concentration.py`:
sum of squared function shares, `0.0` when the total count is `0`. -/
def compute_hhi (function_counts : List (String × ℕ)) : ℚ :=
  let total : ℚ := ((function_counts.map (fun p => p.2)).sum : ℕ)
  if total ≤ 0 then 0
  else ((function_counts.map (fun p => ((p.2 : ℚ) / total) * ((p.2 : ℚ) / total))).sum)

/-- Result record of `compute_talent_concentration` (the `function_counts`
echo field is omitted: it is a copy of the input). -/
structure TCResult where
  sample_size : ℕ
  min_sample_met : Bool
  hhi_value : ℚ
  top1_ratio : ℚ
  penalty_factor : ℚ
deriving Repr, DecidableEq

/-- Embedding of `compute_talent_concentration` from
`app/scoring/talent_concentration.py`.  The Python defaults are
`min_sample_size=25, hhi_mild=0.40, hhi_severe=0.70, penalty_mild=0.92,
penalty_severe=0.80` (see `defaults` below); parameters are passed
explicitly here.  `safe_div(top1, sample, 0)` is division with `0` default,
which coincides with Lean division by zero being `0`. -/
def compute_talent_concentration (function_counts : List (String × ℕ))
    (min_sample_size : ℕ) (hhi_mild hhi_severe penalty_mild penalty_severe : ℚ) :
    TCResult :=
  let sample_size : ℕ := (function_counts.map (fun p => p.2)).sum
  let min_met : Bool := decide (sample_size ≥ min_sample_size)
  let hhi := compute_hhi function_counts
  let top1 : ℕ := ((function_counts.map (fun p => p.2)).max?).getD 0
  let top1_ratio : ℚ := (top1 : ℚ) / (sample_size : ℚ)
  let penalty_factor : ℚ :=
    if min_met then
      if hhi ≥ hhi_severe then penalty_severe
      else if hhi ≥ hhi_mild then penalty_mild
      else 1
    else 1
  ⟨sample_size, min_met, hhi, clamp top1_ratio 0 1, clamp penalty_factor 0 1⟩

/-- Python default arguments of `compute_talent_concentration`. -/
def default_min_sample_size : ℕ := 25

/-- Python default `hhi_mild = 0.40`. -/
def default_hhi_mild : ℚ := 40/100

/-- Python default `hhi_severe = 0.70`. -/
def default_hhi_severe : ℚ := 70/100

/-- Python default `penalty_mild = 0.92`. -/
def default_penalty_mild : ℚ := 92/100

/-- Python default `penalty_severe = 0.80`. -/
def default_penalty_severe : ℚ := 80/100

end TalentConcentration

namespace TalentPenalty

/-- Embedding of `TalentPenaltyConfig` from
`app/scoring_engine/talent_penalty.py`. -/
structure TalentPenaltyConfig where
  hhi_threshold_mild : ℚ
  hhi_threshold_severe : ℚ
  penalty_factor_mild : ℚ
  penalty_factor_severe : ℚ
  min_sample_size : ℕ
  version : String
deriving Repr, DecidableEq

/-- The safe-default configuration returned by `load_talent_penalty_config`
when no row exists for the requested version. -/
def default_config (version : String) : TalentPenaltyConfig :=
  ⟨40/100, 70/100, 95/100, 85/100, 15, version⟩

/-- Result record of `compute_talent_penalty`. -/
structure TalentPenaltyResult where
  hhi_value : ℚ
  penalty_factor : ℚ
  penalty_points : ℚ
  sample_size : ℕ
  min_sample_met : Bool
  function_counts : List (String × ℕ)
deriving Repr, DecidableEq

/-- One step of the counting loop in `compute_hhi`
(`counts[f] = counts.get(f, 0) + 1`), keeping dict insertion order. -/
def bump (l : List (String × ℕ)) (k : String) : List (String × ℕ) :=
  match l with
  | [] => [(k, 1)]
  | (k2, v) :: rest => if k2 == k then (k2, v + 1) :: rest else (k2, v) :: bump rest k

/-- The counting loop of `compute_hhi` in `talent_penalty.py`. -/
def tally (functions : List String) : List (String × ℕ) :=
  functions.foldl bump []

/-- Embedding of `compute_hhi` from `app/scoring_engine/talent_penalty.py`
(the variant that takes the raw list of function labels). -/
def compute_hhi (functions : List String) : ℚ × List (String × ℕ) :=
  let counts := tally functions
  let n := functions.length
  if n = 0 then (0, counts)
  else (((counts.map (fun p => ((p.2 : ℚ) / (n : ℚ)) * ((p.2 : ℚ) / (n : ℚ)))).sum), counts)

/-- Embedding of the pure core of `compute_talent_penalty` from
`app/scoring_engine/talent_penalty.py`: the database cursor arguments are
replaced by the already-fetched list of job-function labels and the
already-loaded configuration. -/
def compute_talent_penalty (functions : List String) (cfg : TalentPenaltyConfig) :
    TalentPenaltyResult :=
  let sample_size := functions.length
  if sample_size < cfg.min_sample_size then
    let hc := compute_hhi functions
    ⟨hc.1, 1, 0, sample_size, false, hc.2⟩
  else
    let hc := compute_hhi functions
    let factor :=
      if hc.1 ≥ cfg.hhi_threshold_severe then cfg.penalty_factor_severe
      else if hc.1 ≥ cfg.hhi_threshold_mild then cfg.penalty_factor_mild
      else 1
    ⟨hc.1, clamp factor 0 1, 0, sample_size, true, hc.2⟩

end TalentPenalty

namespace ScoringUtils

/-- Embedding of `safe_div` from `app/scoring/utils.py`. -/
noncomputable def safe_div (num den dflt : ℝ) : ℝ :=
  if den = 0 then dflt else num / den

/-- Embedding of `weighted_mean` from `app/scoring/utils.py`. -/
noncomputable def weighted_mean (values weights : List ℝ) : ℝ :=
  safe_div (((values.zip weights).map (fun p => p.1 * p.2)).sum) weights.sum 0

/-- Embedding of `weighted_std_dev` from `app/scoring/utils.py`; the Python
`var ** 0.5` is `Real.sqrt`. -/
noncomputable def weighted_std_dev (values weights : List ℝ) : ℝ :=
  let mu := weighted_mean values weights
  let var := safe_div (((values.zip weights).map
    (fun p => p.2 * ((p.1 - mu) * (p.1 - mu)))).sum) weights.sum 0
  Real.sqrt var

/-- Embedding of `coefficient_of_variation` from `app/scoring/utils.py`,
including the `abs(mu) < 1e-9` degeneracy guard. -/
noncomputable def coefficient_of_variation (values weights : List ℝ) : ℝ :=
  let mu := weighted_mean values weights
  if |mu| < 1/1000000000 then 0
  else weighted_std_dev values weights / |mu|

end ScoringUtils

namespace VRCalc

open ScoringUtils

/-- Python default `cv_penalty_strength = 8.0` of `compute_vr`. -/
def default_cv_penalty_strength : ℝ := 8

/-- Embedding of `compute_vr` from `app/scoring/vr_calculator.py`: weighted
mean of the dimension scores (defaulting a missing dimension to 50) minus a
coefficient-of-variation imbalance penalty clamped to `[0, 15]`, the result
clamped to `[0, 100]`. -/
noncomputable def compute_vr (dimension_scores weights : List (String × ℝ))
    (cv_penalty_strength : ℝ) : ℝ :=
  let dims := weights.map (fun p => p.1)
  let scores := dims.map (fun d => getD dimension_scores d 50)
  let w := dims.map (fun d => getD weights d 0)
  let base := if 0 < w.sum then weighted_mean scores w else 50
  let cv := coefficient_of_variation scores (scores.map (fun _ => 1))
  let penalty := clamp (cv * cv_penalty_strength) 0 15
  clamp (base - penalty) 0 100

end VRCalc

namespace VRModel

/-- Embedding of `DimensionInput` from `app/scoring_engine/vr_model.py`. -/
structure DimensionInput where
  dimension : String
  raw_score : ℚ
  confidence : ℚ
  evidence_count : ℕ
deriving Repr, DecidableEq

/-- Python default `confidence_floor = 0.20` of `compute_vr_score`. -/
def default_confidence_floor : ℚ := 20/100

/-- Per-dimension numerator and denominator contribution of the loop body of
`compute_vr_score`: `(clamp(raw, 0, 100) * (w * c_eff), w * c_eff)` where
`c_eff = max(clamp(confidence, 0, 1), confidence_floor)`. -/
def contribution (sector_weights : List (String × ℚ)) (confidence_floor : ℚ)
    (d : DimensionInput) : ℚ × ℚ :=
  let w := getD sector_weights d.dimension 0
  let c := clamp d.confidence 0 1
  let c_eff := max c confidence_floor
  let weighted_conf := w * c_eff
  (clamp d.raw_score 0 100 * weighted_conf, weighted_conf)

/-- Embedding of `compute_vr_score` from `app/scoring_engine/vr_model.py`.
The explainability `breakdown` list (a per-dimension echo of the loop's
intermediate values) is omitted; only the returned VR value is kept. -/
def compute_vr_score (dimension_inputs : List DimensionInput)
    (sector_weights : List (String × ℚ)) (confidence_floor : ℚ) : ℚ :=
  let terms := dimension_inputs.map (contribution sector_weights confidence_floor)
  let numerator := (terms.map (fun t => t.1)).sum
  let denom := (terms.map (fun t => t.2)).sum
  if denom ≤ 0 then 0 else clamp (numerator / denom) 0 100

end VRModel

namespace Composite

/-- Result record of `compute_composite` from
`app/scoring_engine/composite.py`. -/
structure CompositeResult where
  composite_score : ℚ
  score_band : String
deriving Repr, DecidableEq

/-- Embedding of `_assign_score_band` from `app/scoring_engine/composite.py`
(the 5-band CS3 cut-point scheme). -/
def assign_score_band (score : ℚ) : String :=
  if score ≤ 20 then "Nascent"
  else if score ≤ 40 then "Developing"
  else if score ≤ 60 then "Progressing"
  else if score ≤ 80 then "Advanced"
  else "Leading"

/-- Embedding of `compute_composite` from `app/scoring_engine/composite.py`.
`hr_score`, `synergy_score`, `synergy_bonus` and `penalty_factor` are the
optional Python arguments (`None` = `Option.none`).  `synergy_bonus or 0.0`
agrees with `Option.getD 0` because the only falsy float it replaces is
`0.0` itself.  `round(composite, 2)` is `roundTo 100`. -/
def compute_composite (vr_score : ℚ) (hr_score synergy_score : Option ℚ)
    (alpha beta : ℚ) (synergy_bonus penalty_factor : Option ℚ) : CompositeResult :=
  let vr := clamp vr_score 0 100
  match hr_score, synergy_score with
  | some hr0, some syn0 =>
    let hr := clamp hr0 0 100
    let syn := clamp syn0 0 100
    let a := clamp alpha 0 1
    let b := clamp beta 0 1
    let composite := clamp ((1 - b) * (a * vr + (1 - a) * hr) + b * syn) 0 100
    ⟨roundTo 100 composite, assign_score_band composite⟩
  | _, _ =>
    let sb := synergy_bonus.getD 0
    let pf := clamp (penalty_factor.getD 1) 0 1
    let composite := clamp ((vr + sb) * pf) 0 100
    ⟨roundTo 100 composite, assign_score_band composite⟩

/-- Python defaults `alpha = 0.60` of `compute_composite`. -/
def default_alpha : ℚ := 60/100

/-- Python defaults `beta = 0.12` of `compute_composite`. -/
def default_beta : ℚ := 12/100

end Composite

namespace Synergy

/-- Embedding of `SynergyRule` from `app/scoring_engine/synergy.py`. -/
structure SynergyRule where
  dim_a : String
  dim_b : String
  synergy_type : String
  threshold : ℚ
  magnitude : ℚ
deriving Repr, DecidableEq

/-- Embedding of `SynergyHit` (the human-readable `reason` string is
omitted). -/
structure SynergyHit where
  dim_a : String
  dim_b : String
  synergy_type : String
  threshold : ℚ
  magnitude : ℚ
  activated : Bool
deriving Repr, DecidableEq

/-- Result record of `compute_synergy`. -/
structure SynergyResult where
  synergy_bonus : ℚ
  cap : ℚ
  hits : List SynergyHit
deriving Repr, DecidableEq

/-- Activation test of one rule in the loop body of `compute_synergy`:
positive rules need both referenced dimension scores at or above the
threshold, negative rules need `dim_a` at or above and `dim_b` below; any
other `synergy_type` never activates.  A dimension missing from
`scores_by_dim` reads as `0.0`. -/
def rule_activated (scores_by_dim : List (String × ℚ)) (r : SynergyRule) : Bool :=
  let a := getD scores_by_dim r.dim_a 0
  let b := getD scores_by_dim r.dim_b 0
  if r.synergy_type == "positive" then decide (a ≥ r.threshold) && decide (b ≥ r.threshold)
  else if r.synergy_type == "negative" then decide (a ≥ r.threshold) && decide (b < r.threshold)
  else false

/-- Embedding of `compute_synergy` from `app/scoring_engine/synergy.py`.
The single Python loop both records a `SynergyHit` per rule and accumulates
`total += magnitude` for activated rules; the two are split into one `map`
each.  The total is clamped to `[-cap_abs, cap_abs]`. -/
def compute_synergy (scores_by_dim : List (String × ℚ)) (rules : List SynergyRule)
    (cap_abs : ℚ) : SynergyResult :=
  let hits := rules.map (fun r =>
    SynergyHit.mk r.dim_a r.dim_b r.synergy_type r.threshold r.magnitude
      (rule_activated scores_by_dim r))
  let total := (rules.map (fun r =>
    if rule_activated scores_by_dim r then r.magnitude else 0)).sum
  ⟨clamp total (-cap_abs) cap_abs, cap_abs, hits⟩

/-- Python default `cap_abs = 15.0` of `compute_synergy`. -/
def default_cap_abs : ℚ := 15

end Synergy

namespace RubricScorer

/-- Embedding of the `ScoreLevel` enum of
`app/scoring_engine/rubric_scorer.py` (the verbal label is omitted). -/
inductive ScoreLevel where
  | LEVEL_5
  | LEVEL_4
  | LEVEL_3
  | LEVEL_2
  | LEVEL_1
deriving Repr, DecidableEq

/-- Lower end of a level's score range. -/
def ScoreLevel.min_score : ScoreLevel → ℕ
  | .LEVEL_5 => 80
  | .LEVEL_4 => 60
  | .LEVEL_3 => 40
  | .LEVEL_2 => 20
  | .LEVEL_1 => 0

/-- Upper end of a level's score range. -/
def ScoreLevel.max_score : ScoreLevel → ℕ
  | .LEVEL_5 => 100
  | .LEVEL_4 => 79
  | .LEVEL_3 => 59
  | .LEVEL_2 => 39
  | .LEVEL_1 => 19

/-- Embedding of `RubricCriteria`. -/
structure RubricCriteria where
  level : ScoreLevel
  keywords : List String
  min_keyword_matches : ℕ
  quantitative_threshold : ℚ
deriving Repr, DecidableEq

/-- Embedding of `RubricResult` (the `rationale` log string is omitted). -/
structure RubricResult where
  dimension : String
  level : ScoreLevel
  score : ℚ
  matched_keywords : List String
  keyword_match_count : ℕ
  confidence : ℚ
deriving Repr, DecidableEq

/-- One `_mk_levels` entry list.  The Python rubric is a dict keyed by level
and the scoring loop reads it back in the fixed order `LEVEL_5 .. LEVEL_1`;
since every table is built by `_mk_levels` in that very order, the rubric is
embedded directly as the ordered list the loop traverses. -/
def DIMENSION_RUBRICS : List (String × List RubricCriteria) :=
  [("talent",
    [⟨.LEVEL_5, ["ml platform", "ai research", "large team", "principal ml", "staff ml"], 3, 40/100⟩,
     ⟨.LEVEL_4, ["data science team", "ml engineers", "active hiring", "retention"], 2, 25/100⟩,
     ⟨.LEVEL_3, ["data scientist", "growing team", "capability"], 2, 10/100⟩,
     ⟨.LEVEL_2, ["junior", "contractor", "turnover"], 1, 3/100⟩,
     ⟨.LEVEL_1, ["vendor only", "no data scientist"], 1, 0⟩]),
   ("data_infrastructure",
    [⟨.LEVEL_5, ["snowflake", "databricks", "real-time", "api-first"], 2, 90/100⟩,
     ⟨.LEVEL_4, ["aws", "azure", "warehouse", "etl"], 2, 70/100⟩,
     ⟨.LEVEL_3, ["migration", "hybrid", "modernizing"], 1, 50/100⟩,
     ⟨.LEVEL_2, ["legacy", "silos", "on-prem"], 1, 30/100⟩,
     ⟨.LEVEL_1, ["manual", "spreadsheet", "mainframe"], 1, 0⟩]),
   ("ai_governance",
    [⟨.LEVEL_5, ["caio", "cdo", "board committee", "model risk"], 2, 85/100⟩,
     ⟨.LEVEL_4, ["vp data", "ai policy", "risk framework"], 2, 65/100⟩,
     ⟨.LEVEL_3, ["director", "guidelines", "it governance"], 1, 45/100⟩,
     ⟨.LEVEL_2, ["informal", "ad-hoc", "no policy"], 1, 20/100⟩,
     ⟨.LEVEL_1, ["no oversight", "unmanaged"], 1, 0⟩]),
   ("technology_stack",
    [⟨.LEVEL_5, ["mlops", "feature store", "model registry", "sagemaker"], 2, 80/100⟩,
     ⟨.LEVEL_4, ["mlflow", "kubeflow", "databricks ml"], 2, 60/100⟩,
     ⟨.LEVEL_3, ["jupyter", "notebooks", "manual deploy"], 1, 40/100⟩,
     ⟨.LEVEL_2, ["excel", "tableau", "no ml"], 1, 20/100⟩,
     ⟨.LEVEL_1, ["no tools", "manual"], 1, 0⟩]),
   ("leadership",
    [⟨.LEVEL_5, ["ceo ai", "board committee", "ai strategy"], 2, 80/100⟩,
     ⟨.LEVEL_4, ["cto ai", "strategic priority", "executive"], 2, 60/100⟩,
     ⟨.LEVEL_3, ["vp sponsor", "department initiative"], 1, 40/100⟩,
     ⟨.LEVEL_2, ["it led", "limited awareness"], 1, 20/100⟩,
     ⟨.LEVEL_1, ["no sponsor", "not discussed"], 1, 0⟩]),
   ("use_case_portfolio",
    [⟨.LEVEL_5, ["production ai", "ai product", "3x roi"], 2, 80/100⟩,
     ⟨.LEVEL_4, ["production", "measured roi", "scaling"], 2, 60/100⟩,
     ⟨.LEVEL_3, ["pilot", "early production"], 1, 40/100⟩,
     ⟨.LEVEL_2, ["poc", "proof of concept"], 1, 20/100⟩,
     ⟨.LEVEL_1, ["exploring", "no use cases"], 1, 0⟩]),
   ("culture",
    [⟨.LEVEL_5, ["innovative", "data-driven", "fail-fast"], 2, 75/100⟩,
     ⟨.LEVEL_4, ["experimental", "learning culture"], 1, 55/100⟩,
     ⟨.LEVEL_3, ["open to change", "some resistance"], 1, 40/100⟩,
     ⟨.LEVEL_2, ["bureaucratic", "resistant", "slow"], 1, 20/100⟩,
     ⟨.LEVEL_1, ["hostile", "siloed", "no data culture"], 1, 0⟩])]

/-- Embedding of `FEATURE_TO_RUBRIC_DIM`. -/
def FEATURE_TO_RUBRIC_DIM : List (String × String) :=
  [("talent_skills", "talent"), ("leadership_vision", "leadership"),
   ("culture_change", "culture")]

/-- Embedding of `DIMENSION_METRIC_KEY`. -/
def DIMENSION_METRIC_KEY : List (String × String) :=
  [("talent", "ai_job_ratio"), ("data_infrastructure", "data_quality_ratio"),
   ("ai_governance", "governance_maturity"), ("technology_stack", "ml_platform_adoption"),
   ("leadership", "executive_ai_sponsorship"),
   ("use_case_portfolio", "production_use_case_ratio"), ("culture", "culture_index")]

/-- Embedding of `_find_matches`: the keywords (lowered, as in the rubric
loop's call sites) whose word-bounded regex occurs in `text`. -/
def find_matches (text : String) (keywords : List String) : List String :=
  keywords.filter (fun kw => regex_word_search text.data (lower kw).data)

/-- Embedding of `_interpolate`: position within the level's score range by
keyword-hit ratio, rounded to 2 decimals (`Decimal(str(round(score, 2)))`). -/
def interpolate (level : ScoreLevel) (keyword_hits needed : ℕ) : ℚ :=
  let lo : ℚ := level.min_score
  let hi : ℚ := level.max_score
  let ratio : ℚ := if needed ≤ 0 then 1 else min 1 ((keyword_hits : ℚ) / (needed : ℚ))
  roundTo 100 (lo + (hi - lo) * ratio)

/-- The level loop of `RubricScorer.score_dimension`: first level (in
`LEVEL_5 .. LEVEL_1` order) whose keyword-match count and quantitative
metric meet the criteria wins; if none does, the fallback result
`score = Decimal("10.00"), confidence = Decimal("0.40")` at `LEVEL_1` is
returned.  The matched branch's confidence is
`Decimal(str(round(min(0.95, 0.50 + 0.08 * matches + 0.30 * metric), 3)))`. -/
def score_level_loop (dim : String) (text : String) (metric_val : ℚ) :
    List RubricCriteria → RubricResult
  | [] => ⟨dim, .LEVEL_1, 10, [], 0, 40/100⟩
  | c :: rest =>
    let hits := find_matches text c.keywords
    if hits.length ≥ c.min_keyword_matches ∧ metric_val ≥ c.quantitative_threshold then
      ⟨dim, c.level, interpolate c.level hits.length (c.min_keyword_matches + 2),
       hits, hits.length,
       roundTo 1000 (min (95/100) (50/100 + 8/100 * (hits.length : ℚ) + 30/100 * metric_val))⟩
    else score_level_loop dim text metric_val rest

/-- Embedding of `RubricScorer.score_dimension`. -/
def score_dimension (dimension evidence_text : String)
    (quantitative_metrics : List (String × ℚ)) : RubricResult :=
  let dim := getD FEATURE_TO_RUBRIC_DIM dimension dimension
  let text := lower evidence_text
  let rubric := (List.lookup dim DIMENSION_RUBRICS).getD []
  let metric_key := getD DIMENSION_METRIC_KEY dim ""
  let metric_val := getD quantitative_metrics metric_key 0
  score_level_loop dim text metric_val rubric

end RubricScorer

namespace EvidenceMapper

/-- Embedding of the `EvidenceItem` dataclass of
`app/scoring_engine/evidence_mapper.py`. -/
structure EvidenceItem where
  source : String
  evidence_type : String
  text : String
  url : Option String
  published_at : Option String
deriving Repr, DecidableEq

/-- Embedding of `MappedEvidence`. -/
structure MappedEvidence where
  dimension : String
  matched_keywords : List String
  item : EvidenceItem
deriving Repr, DecidableEq

/-- Embedding of the `DIMENSION_KEYWORDS` taxonomy. -/
def DIMENSION_KEYWORDS : List (String × List String) :=
  [("data_infrastructure",
    ["data lake", "data warehouse", "etl", "pipeline", "spark", "snowflake", "databricks",
     "governance of data", "data quality", "master data", "metadata", "lineage"]),
   ("ai_governance",
    ["model risk", "responsible ai", "ai governance", "policy", "compliance", "privacy",
     "security", "bias", "audit", "controls", "risk management"]),
   ("technology_stack",
    ["cloud", "aws", "azure", "gcp", "kubernetes", "mlops", "api", "microservice",
     "vector database", "llm", "cortex", "bedrock", "sagemaker"]),
   ("talent_skills",
    ["data scientist", "machine learning engineer", "ml engineer", "data engineer",
     "ai engineer", "mlops", "analytics", "python", "sql"]),
   ("leadership_vision",
    ["strategy", "roadmap", "executive", "ceo", "cio", "chief data", "chief ai",
     "investment", "transformation", "innovation"]),
   ("use_case_portfolio",
    ["use case", "pilot", "production", "deployment", "predictive", "forecast",
     "recommendation", "fraud", "optimization", "automation", "genai"]),
   ("culture_change",
    ["training", "change management", "culture", "adoption", "upskilling", "reskilling",
     "agile", "cross-functional", "center of excellence", "coe"])]

/-- Embedding of the module-level `map_evidence_to_dimensions` free function
(`_normalize(item.text)` is `lower`; dimensions whose keyword scan hits
nothing are skipped; hits are capped at 8). -/
def map_evidence_to_dimensions (items : List EvidenceItem) : List MappedEvidence :=
  items.flatMap (fun item =>
    let t := lower item.text
    DIMENSION_KEYWORDS.filterMap (fun dk =>
      let hits := dk.2.filter (fun kw => contains_sub t.data kw.data)
      if hits.isEmpty then none
      else some ⟨dk.1, hits.take 8, item⟩))

/-- The `explicit` bucket dictionary inside `_infer_signal_bucket`. -/
def EXPLICIT_BUCKETS : List (String × String) :=
  [("technology_hiring", "technology_hiring"), ("jobs", "technology_hiring"),
   ("innovation_activity", "innovation_activity"), ("patents", "innovation_activity"),
   ("digital_presence", "digital_presence"), ("tech", "digital_presence"),
   ("leadership_signals", "leadership_signals"), ("news", "leadership_signals"),
   ("sec_item_1", "sec_item_1"), ("sec_item_1a", "sec_item_1a"),
   ("sec_item_7", "sec_item_7"), ("glassdoor_reviews", "glassdoor_reviews"),
   ("board_composition", "board_composition"), ("10k", "10k")]

/-- Model of Python `s.strip()`: drop leading and trailing whitespace. -/
def strip_ws (s : String) : String :=
  String.mk (((s.data.dropWhile Char.isWhitespace).reverse.dropWhile
    Char.isWhitespace).reverse)

/-- Model of `t.replace(a, b)` for the single-character replacements used by
`_infer_signal_bucket` (`"-" -> "_"` and `" " -> "_"`). -/
def replace_char (s : String) (a b : Char) : String :=
  String.mk (s.data.map (fun c => if c == a then b else c))

/-- Model of Python `p in t` on strings. -/
def has_sub (t p : String) : Bool := contains_sub t.data p.data

/-- Embedding of `_infer_signal_bucket`: explicit bucket table on the
normalized evidence type, then the heuristic substring chain, defaulting to
`leadership_signals`. -/
def infer_signal_bucket (item : EvidenceItem) : String :=
  let t := lower (strip_ws item.evidence_type)
  let normalized := replace_char (replace_char t '-' '_') ' ' '_'
  match List.lookup normalized EXPLICIT_BUCKETS with
  | some b => b
  | none =>
    if has_sub t "item 1a" then "sec_item_1a"
    else if has_sub t "item 7" && !(has_sub t "item 7a") then "sec_item_7"
    else if has_sub t "item 1" && !(has_sub t "item 1a") then "sec_item_1"
    else if has_sub t "glassdoor" && has_sub t "review" then "glassdoor_reviews"
    else if has_sub t "board" && (has_sub t "composition" || has_sub t "proxy") then "board_composition"
    else if has_sub t "10-k" || has_sub t "10k" || has_sub t "10 q" || has_sub t "10-q" then "10k"
    else if has_sub t "job" || has_sub t "hiring" then "technology_hiring"
    else if has_sub t "patent" || has_sub t "innovation" then "innovation_activity"
    else if has_sub t "tech" || has_sub t "stack" || has_sub t "digital" then "digital_presence"
    else "leadership_signals"

/-- One per-source payload of `build_source_payloads`:
`{count: int, keywords: {kw: freq}}`. -/
structure SourcePayload where
  count : ℕ
  keywords : List (String × ℕ)
deriving Repr, DecidableEq

/-- Dict update `l[k] = v` (in-place for an existing key, appended for a new
one, as Python dicts do). -/
def assoc_update {α : Type} (l : List (String × α)) (k : String) (v : α) :
    List (String × α) :=
  match l with
  | [] => [(k, v)]
  | (k2, w) :: rest => if k2 == k then (k2, v) :: rest else (k2, w) :: assoc_update rest k v

/-- Dict increment `m[k] = m.get(k, 0) + v`. -/
def dict_add (m : List (String × ℕ)) (k : String) (v : ℕ) : List (String × ℕ) :=
  assoc_update m k (getD m k 0 + v)

/-- Embedding of `build_source_payloads`: group mapped evidence by inferred
source bucket, counting items and keyword frequencies. -/
def build_source_payloads (mapped : List MappedEvidence) : List (String × SourcePayload) :=
  mapped.foldl (fun payloads m =>
    let src := infer_signal_bucket m.item
    let cur := getD payloads src ⟨0, []⟩
    assoc_update payloads src
      ⟨cur.count + 1, m.matched_keywords.foldl (fun acc kw => dict_add acc kw 1) cur.keywords⟩) []

/-- Embedding of `SourceProfile` from
`app/scoring_engine/mapping_config.py`. -/
structure SourceProfile where
  reliability : ℚ
  dim_weights : List (String × ℚ)
deriving Repr, DecidableEq

/-- Embedding of the `SOURCE_PROFILES` table of `mapping_config.py`
(keyword-argument insertion order preserved). -/
def SOURCE_PROFILES : List (String × SourceProfile) :=
  [("technology_hiring", ⟨85/100,
     [("data_infrastructure", 10/100), ("technology_stack", 20/100),
      ("talent_skills", 70/100), ("culture_change", 10/100)]⟩),
   ("innovation_activity", ⟨80/100,
     [("data_infrastructure", 20/100), ("technology_stack", 50/100),
      ("use_case_portfolio", 30/100)]⟩),
   ("digital_presence", ⟨70/100,
     [("data_infrastructure", 60/100), ("technology_stack", 40/100)]⟩),
   ("leadership_signals", ⟨80/100,
     [("ai_governance", 25/100), ("leadership_vision", 60/100),
      ("culture_change", 15/100)]⟩),
   ("sec_item_1", ⟨90/100,
     [("technology_stack", 30/100), ("use_case_portfolio", 70/100)]⟩),
   ("sec_item_1a", ⟨90/100,
     [("data_infrastructure", 20/100), ("ai_governance", 80/100)]⟩),
   ("sec_item_7", ⟨90/100,
     [("data_infrastructure", 20/100), ("leadership_vision", 50/100),
      ("use_case_portfolio", 30/100)]⟩),
   ("glassdoor_reviews", ⟨75/100,
     [("talent_skills", 10/100), ("leadership_vision", 10/100),
      ("culture_change", 80/100)]⟩),
   ("board_composition", ⟨90/100,
     [("ai_governance", 70/100), ("leadership_vision", 30/100)]⟩),
   ("jobs", ⟨85/100,
     [("data_infrastructure", 10/100), ("technology_stack", 20/100),
      ("talent_skills", 70/100), ("culture_change", 10/100)]⟩),
   ("patents", ⟨80/100,
     [("data_infrastructure", 20/100), ("technology_stack", 50/100),
      ("use_case_portfolio", 30/100)]⟩),
   ("tech", ⟨70/100,
     [("data_infrastructure", 60/100), ("technology_stack", 40/100)]⟩),
   ("news", ⟨80/100,
     [("ai_governance", 25/100), ("leadership_vision", 60/100),
      ("culture_change", 15/100)]⟩),
   ("10k", ⟨90/100,
     [("data_infrastructure", 20/100), ("ai_governance", 20/100),
      ("technology_stack", 15/100), ("leadership_vision", 20/100),
      ("use_case_portfolio", 25/100)]⟩)]

/-- Embedding of `normalize_weights` from `mapping_config.py`: negative
weights floor at 0; a non-positive total yields an all-zero map, otherwise
weights are divided by the total. -/
def normalize_weights (weights : List (String × ℚ)) : List (String × ℚ) :=
  let s : ℚ := (weights.map (fun p => max 0 p.2)).sum
  if s ≤ 0 then weights.map (fun p => (p.1, (0 : ℚ)))
  else weights.map (fun p => (p.1, max 0 p.2 / s))

/-- Embedding of `DimensionFeature`. -/
structure DimensionFeature where
  dimension : String
  weighted_signal : ℚ
  evidence_count : ℕ
  reliability_weighted : ℚ
  top_keywords : List String
deriving Repr, DecidableEq

/-- Per-dimension accumulator of `map_sources_to_dimension_features`. -/
structure FeatureAcc where
  weighted_signal : ℚ
  evidence_count : ℕ
  reliability_weighted : ℚ
  keywords : List (String × ℕ)
deriving Repr, DecidableEq

/-- Stable descending insertion by keyword frequency: `ins` places `x` after
every element with frequency `≥ x`'s, so `foldl ins []` is Python's stable
`sorted(..., key=lambda x: x[1], reverse=True)`. -/
def ins (l : List (String × ℕ)) (x : String × ℕ) : List (String × ℕ) :=
  match l with
  | [] => [x]
  | y :: ys => if y.2 < x.2 then x :: y :: ys else y :: ins ys x

/-- Model of `sorted(items, key=lambda x: x[1], reverse=True)`. -/
def sort_desc_by_count (l : List (String × ℕ)) : List (String × ℕ) :=
  l.foldl ins []

/-- The per-source accumulation loop body of
`map_sources_to_dimension_features`.  `acc[dim]` can only be read for the
canonical dimensions (every profile's weight vector uses canonical keys), so
the lookup default is never reached. -/
def accumulate_source (acc : List (String × FeatureAcc))
    (entry : String × SourcePayload) : List (String × FeatureAcc) :=
  match List.lookup entry.1 SOURCE_PROFILES with
  | none => acc
  | some prof =>
    let w := normalize_weights prof.dim_weights
    let count := entry.2.count
    let kws := entry.2.keywords
    w.foldl (fun acc2 dw =>
      let a := getD acc2 dw.1 ⟨0, 0, 0, []⟩
      assoc_update acc2 dw.1
        ⟨a.weighted_signal + (count : ℚ) * dw.2 * prof.reliability,
         a.evidence_count + count,
         a.reliability_weighted + dw.2 * prof.reliability,
         kws.foldl (fun m kv => dict_add m kv.1 kv.2) a.keywords⟩) acc

/-- Embedding of `map_sources_to_dimension_features`: weighted mapping
matrix with reliability, producing one `DimensionFeature` per canonical
dimension (top 5 keywords by frequency). -/
def map_sources_to_dimension_features (source_payloads : List (String × SourcePayload)) :
    List (String × DimensionFeature) :=
  let acc0 : List (String × FeatureAcc) := DIMENSIONS.map (fun d => (d, ⟨0, 0, 0, []⟩))
  let acc := source_payloads.foldl accumulate_source acc0
  DIMENSIONS.map (fun dim =>
    let a := getD acc dim ⟨0, 0, 0, []⟩
    let topk := (sort_desc_by_count a.keywords).take 5
    (dim, ⟨dim, a.weighted_signal, a.evidence_count, a.reliability_weighted,
           topk.map (fun p => p.1)⟩))

/-- Embedding of `DimensionScoreResult` from `rubric_scorer.py` (the
`reasons` log strings are omitted). -/
structure DimensionScoreResult where
  dimension : String
  score : ℚ
  confidence : ℚ
  evidence_count : ℕ
  top_keywords : List String
deriving Repr, DecidableEq

/-- Embedding of `_default_result`: the neutral record used when a dimension
is missing from the features dict. -/
def default_result (dim : String) : DimensionScoreResult :=
  ⟨dim, 50, 50/100, 0, []⟩

/-- Embedding of `score_dimension_features` from `rubric_scorer.py`.  The
Python guard is `if not f:` on the looked-up value; a `DimensionFeature`
dataclass instance is always truthy, so the default fires exactly when the
dimension key is missing from `features`. -/
def score_dimension_features (features : List (String × DimensionFeature)) :
    List DimensionScoreResult :=
  DIMENSIONS.map (fun feature_dim =>
    match List.lookup feature_dim features with
    | none => default_result feature_dim
    | some f =>
      let evidence_text := join_space f.top_keywords
      let rr := RubricScorer.score_dimension feature_dim evidence_text []
      ⟨f.dimension, clamp rr.score 0 100, clamp rr.confidence 0 1,
       f.evidence_count, f.top_keywords⟩)

end EvidenceMapper

namespace SemConfidence

/-- Embedding of `SEMResult` from `app/scoring_engine/sem_confidence.py`
(`model_fit_index` is a small string-keyed float dict). -/
structure SEMResult where
  lower : ℝ
  upper : ℝ
  standard_error : ℝ
  model_fit_index : List (String × ℝ)
  method_used : String

/-- Dot product of two equally long vectors (`numpy` row-vector product). -/
noncomputable def dot (a b : List ℝ) : ℝ :=
  ((a.zip b).map (fun p => p.1 * p.2)).sum

/-- Matrix-vector product `X @ w` over row-major lists. -/
noncomputable def matVec (X : List (List ℝ)) (w : List ℝ) : List ℝ :=
  X.map (fun row => dot row w)

/-- Mean of a list (`numpy.mean`; division by zero yields Lean's `0`, only
reached behind the callers' emptiness guards). -/
noncomputable def mean (l : List ℝ) : ℝ := l.sum / (l.length : ℝ)

/-- Sample standard deviation with `ddof=1` (`numpy.std(arr, ddof=1)`); the
callers guard `len(arr) > 1`. -/
noncomputable def std_ddof1 (l : List ℝ) : ℝ :=
  let mu := mean l
  Real.sqrt ((l.map (fun x => (x - mu) * (x - mu))).sum / ((l.length : ℝ) - 1))

/-- Embedding of `_ols_fit`: fit `y = a + b x`, returning
`(a, b, sigma, r2)`, or `none` for the `ValueError` raised when
`Sxx <= 1e-12` (the ill-conditioned guard). -/
noncomputable def olsFit (x y : List ℝ) : Option (ℝ × ℝ × ℝ × ℝ) :=
  let n := x.length
  let x_mean := mean x
  let y_mean := mean y
  let Sxx := (x.map (fun xi => (xi - x_mean) * (xi - x_mean))).sum
  if Sxx ≤ 1/1000000000000 then none
  else
    let b := ((x.zip y).map (fun p => (p.1 - x_mean) * (p.2 - y_mean))).sum / Sxx
    let a := y_mean - b * x_mean
    let resid := (x.zip y).map (fun p => p.2 - (a + b * p.1))
    let dof : ℕ := max 1 (n - 2)
    let sigma := Real.sqrt ((resid.map (fun r => r * r)).sum / (dof : ℝ))
    let SStot := (y.map (fun yi => (yi - y_mean) * (yi - y_mean))).sum
    let SSres := (resid.map (fun r => r * r)).sum
    let r2 := if 1/1000000000000 < SStot then 1 - SSres / SStot else 0
    some (a, b, sigma, r2)

/-- Embedding of `_prediction_se`: standard error of the mean prediction at
`x0`.  Python returns `float("inf")` when `Sxx <= 1e-12`; that branch is
unreachable from the embedded call site (it is only called on the very `x`
on which `olsFit` just succeeded, so `Sxx` exceeds the guard), and `ℝ` has
no infinity, so the unreachable branch returns the inert placeholder `0`. -/
noncomputable def predictionSe (x : List ℝ) (x0 sigma : ℝ) : ℝ :=
  let n := x.length
  let x_mean := mean x
  let Sxx := (x.map (fun xi => (xi - x_mean) * (xi - x_mean))).sum
  if Sxx ≤ 1/1000000000000 then 0
  else sigma * Real.sqrt (1 / (n : ℝ) + (x0 - x_mean) * (x0 - x_mean) / Sxx)

/-- Abstract model of `_pca_one_factor_loadings` (an `numpy.linalg.eigh`
eigendecomposition, which cannot be shallowly embedded as executable
arithmetic): any function producing loadings from a matrix, `none` standing
for a raised `LinAlgError`.  Every theorem below quantifies over all such
functions, so the claims hold whatever the eigensolver computes. -/
def Loadings : Type := List (List ℝ) → Option (List ℝ)

/-- Model of `random.Random(seed)`: CPython's Mersenne Twister state is a
pure function of the seed.  The embedding uses a linear congruential stream;
the claims below are insensitive to the concrete stream values and only use
that the stream is derived from the seed argument alone. -/
def rng_next (state : ℕ) : ℕ :=
  (state * 6364136223846793005 + 1442695040888963407) % (2 ^ 64)

/-- Model of `rng.randrange(n)`: next index and next state.  Python raises
on `n = 0`; the embedded call sites only draw when `n > 0` draws are
requested. -/
def randrange (n state : ℕ) : ℕ × ℕ :=
  (rng_next state % n, rng_next state)

/-- The list comprehension `[rng.randrange(n) for _ in range(count)]`,
threading the generator state. -/
def draw_indices : ℕ → ℕ → ℕ → List ℕ × ℕ
  | 0, _, state => ([], state)
  | k + 1, n, state =>
    let p := randrange n state
    let rest := draw_indices k n p.2
    (p.1 :: rest.1, rest.2)

/-- Insertion step of an ascending stable sort on reals. -/
noncomputable def insR (l : List ℝ) (x : ℝ) : List ℝ :=
  match l with
  | [] => [x]
  | y :: ys => if x ≤ y then x :: y :: ys else y :: insR ys x

/-- Ascending sort on reals (models `numpy`'s sorting inside
`percentile`). -/
noncomputable def sortR (l : List ℝ) : List ℝ := l.foldl insR []

/-- Embedding of `numpy.percentile(arr, q)` with the default linear
interpolation between the two nearest order statistics. -/
noncomputable def percentile (arr : List ℝ) (q : ℝ) : ℝ :=
  let s := sortR arr
  let pos := (q / 100) * ((s.length : ℝ) - 1)
  let k : ℤ := ⌊pos⌋
  let frac := pos - (k : ℝ)
  let a := s.getD k.toNat 0
  let b := s.getD (k.toNat + 1) a
  a + frac * (b - a)

/-- One iteration of the bootstrap loop of `_bootstrap_ci`, threading
`(rng state, sigmas, full-success predictions)`.  A failed
`_compute_eta`/`_ols_fit` inside the Python `try` is skipped
(`except: continue`); note `sigmas.append(sigma)` happens before the second
`_compute_eta(X)`, so a failure of the latter still records the sigma. -/
noncomputable def bootstrap_iter (lf : Loadings) (X : List (List ℝ)) (y : List ℝ)
    (n : ℕ) (st : ℕ × List ℝ × List (List ℝ)) : ℕ × List ℝ × List (List ℝ) :=
  let state := st.1
  let sigmas := st.2.1
  let preds := st.2.2
  let drawn := draw_indices n n state
  let state2 := drawn.2
  let Xb := drawn.1.map (fun i => X.getD i [])
  let yb := drawn.1.map (fun i => y.getD i 0)
  match lf Xb with
  | none => (state2, sigmas, preds)
  | some lb =>
    match olsFit (matVec Xb lb) yb with
    | none => (state2, sigmas, preds)
    | some abr =>
      let sigmas2 := sigmas ++ [abr.2.2.1]
      match lf X with
      | none => (state2, sigmas2, preds)
      | some l0 =>
        let eta0 := matVec X l0
        (state2, sigmas2, preds ++ [eta0.map (fun e => abr.1 + abr.2.1 * e)])

/-- Embedding of `_bootstrap_ci` from `app/scoring_engine/sem_confidence.py`:
`bootstrap_samples` resampling rounds; if no round ever succeeds, a
degenerate `±5` band around the observed `y` is returned; otherwise the
2.5/97.5 (for `alpha = 0.05`) percentiles of each company's predicted-score
distribution.  Every constructed result is tagged `"bootstrap"`. -/
noncomputable def bootstrap_ci (lf : Loadings) (X : List (List ℝ)) (y : List ℝ)
    (bootstrap_samples : ℕ) (seed : ℕ) (alpha : ℝ) :
    List SEMResult × List (String × ℝ) :=
  let n := X.length
  let final := (List.range bootstrap_samples).foldl
    (fun st _ => bootstrap_iter lf X y n st) (seed, [], [])
  let sigmas := final.2.1
  let preds := final.2.2
  if sigmas.isEmpty || (List.range n).any (fun i => (preds.map (fun v => v.getD i 0)).isEmpty) then
    ((List.range n).map (fun i =>
      ⟨roundTo 100 (clamp (y.getD i 0 - 5) 0 100),
       roundTo 100 (clamp (y.getD i 0 + 5) 0 100),
       5, [("rmse", 0)], "bootstrap"⟩),
     [("rmse", 0)])
  else
    let lo_q := 100 * (alpha / 2)
    let hi_q := 100 * (1 - alpha / 2)
    ((List.range n).map (fun i =>
      let arr := preds.map (fun v => v.getD i 0)
      let lo := clamp (percentile arr lo_q) 0 100
      let hi := clamp (percentile arr hi_q) 0 100
      let se := if 1 < arr.length then std_ddof1 arr else 0
      ⟨roundTo 100 lo, roundTo 100 hi, roundTo 10000 se,
       [("rmse", roundTo 10000 (mean sigmas))], "bootstrap"⟩),
     [("rmse", roundTo 10000 (mean sigmas))])

/-- The simplified-SEM attempt inside the `try` of
`compute_sem_confidence_intervals`: `none` models a raised exception
(failed eigendecomposition or ill-conditioned OLS), which the caller routes
to the bootstrap.  Every constructed result is tagged
`"sem_simplified"`. -/
noncomputable def semPath (lf : Loadings) (X : List (List ℝ)) (y : List ℝ) :
    Option (List SEMResult × List (String × ℝ)) :=
  match lf X with
  | none => none
  | some loadings =>
    let eta := matVec X loadings
    match olsFit eta y with
    | none => none
    | some abr =>
      let a := abr.1
      let b := abr.2.1
      let sigma := abr.2.2.1
      let r2 := abr.2.2.2
      let n := X.length
      some ((List.range n).map (fun i =>
        let y_hat := a + b * eta.getD i 0
        let se := predictionSe eta (eta.getD i 0) sigma
        ⟨roundTo 100 (clamp (y_hat - 196/100 * se) 0 100),
         roundTo 100 (clamp (y_hat + 196/100 * se) 0 100),
         roundTo 10000 se,
         [("r2", roundTo 10000 r2), ("rmse", roundTo 10000 sigma)],
         "sem_simplified"⟩),
       [("r2", roundTo 10000 r2), ("rmse", roundTo 10000 sigma)])

/-- Embedding of `compute_sem_confidence_intervals`: fewer than 5 rows go
straight to the bootstrap; otherwise the simplified-SEM attempt runs and
any failure in it falls back to the bootstrap. -/
noncomputable def compute_sem_confidence_intervals (lf : Loadings)
    (X : List (List ℝ)) (y : List ℝ) (alpha : ℝ) (bootstrap_samples seed : ℕ) :
    List SEMResult × List (String × ℝ) :=
  let n := X.length
  if n < 5 then bootstrap_ci lf X y bootstrap_samples seed alpha
  else
    match semPath lf X y with
    | some rf => rf
    | none => bootstrap_ci lf X y bootstrap_samples seed alpha

/-- Python defaults of `compute_sem_confidence_intervals`:
`alpha = 0.05`. -/
noncomputable def default_alpha : ℝ := 5/100

/-- Python default `bootstrap_samples = 400`. -/
def default_bootstrap_samples : ℕ := 400

/-- Python default `seed = 42`. -/
def default_seed : ℕ := 42

/-- The dict returned by `compute_sem_confidence`. -/
structure SemConfOut where
  lower : ℝ
  upper : ℝ
  standard_error : ℝ
  method_used : String
  model_fit_index : List (String × ℝ)
  global_fit : List (String × ℝ)

/-- Embedding of the pure core of `compute_sem_confidence`: the database
reads (`_fetch_dimension_vector`, `_fetch_training_rows`) are replaced by
the already-fetched current dimension vector and historical training rows.
Zero historical rows short-circuit to the deterministic
`fallback_constant_band` `±5` interval; otherwise the current row is
appended and the last interval of `compute_sem_confidence_intervals` (with
its default `alpha` and `seed`) is read back.  `results[-1]` is modelled by
`getLastD` with an inert default: the intervals list provably has one entry
per row and at least the current row exists on that branch. -/
noncomputable def compute_sem_confidence (lf : Loadings) (current_vec : List ℝ)
    (composite_score : ℝ) (X_hist : List (List ℝ)) (y_hist : List ℝ)
    (bootstrap_samples : ℕ) : SemConfOut :=
  if X_hist.isEmpty then
    ⟨roundTo 100 (clamp (composite_score - 5) 0 100),
     roundTo 100 (clamp (composite_score + 5) 0 100),
     5, "fallback_constant_band", [], []⟩
  else
    let X := X_hist ++ [current_vec]
    let y := y_hist ++ [composite_score]
    let rf := compute_sem_confidence_intervals lf X y default_alpha
      bootstrap_samples default_seed
    let r := rf.1.getLastD ⟨0, 0, 0, [], ""⟩
    ⟨r.lower, r.upper, r.standard_error, r.method_used, r.model_fit_index, rf.2⟩

end SemConfidence

namespace RunEngine

/-- Outcome of one batch scoring run: the companies processed before the run
ended, the terminal `scoring_runs.status`, and the exception surfaced to the
caller (re-raised by `main`), if any. -/
structure RunOutcome (α ε : Type) where
  processed : List α
  status : String
  surfaced : Option ε
deriving Repr, DecidableEq

/-- The company loop of `main` in `scripts/run_scoring_engine.py`, with
`score_one_company` abstracted as a fallible action `f` (its body is a
database-bound pipeline; only its success or raised exception matters to the
driver).  The loop body carries no per-company `try`: the companies are
scored in order until the list is exhausted (run status `"success"`) or a
call raises (run status `"failed"`, the exception re-raised). -/
def run_companies {α ε : Type} (f : α → Except ε Unit) :
    List α → List α → RunOutcome α ε
  | acc, [] => ⟨acc.reverse, "success", none⟩
  | acc, c :: rest =>
    match f c with
    | .ok _ => run_companies f (c :: acc) rest
    | .error e => ⟨acc.reverse, "failed", some e⟩

/-- Embedding of the `try` block of `main`: create the run, loop over the
selected companies, set the terminal status. -/
def run_batch {α ε : Type} (f : α → Except ε Unit) (company_ids : List α) :
    RunOutcome α ε :=
  run_companies f [] company_ids

end RunEngine

/-- The confidence formula as the specification words it (for comparison
with the code's rubric confidence):
`clamp(0.40 + 0.35 * min(evidence_count / 80, 1) + 0.20 * reliability_weighted, 0.40, 0.95)`. -/
def spec_confidence_formula (evidence_count : ℕ) (reliability_weighted : ℚ) : ℚ :=
  clamp (40/100 + 35/100 * min ((evidence_count : ℚ) / 80) 1
    + 20/100 * reliability_weighted) (40/100) (95/100)

section RoundingLemmas

variable {α : Type} [LinearOrderedField α] [FloorRing α]

/-- Round-half-even never overshoots by more than one half. -/
theorem rne_le (q : α) : (rne q : α) ≤ q + 1/2 := by
  have h1 : ((⌊q⌋ : ℤ) : α) ≤ q := Int.floor_le q
  have h2 : q < (⌊q⌋ : α) + 1 := Int.lt_floor_add_one q
  unfold rne
  split_ifs <;> push_cast <;> linarith

/-- Round-half-even never undershoots by more than one half. -/
theorem le_rne (q : α) : q - 1/2 ≤ (rne q : α) := by
  have h1 : ((⌊q⌋ : ℤ) : α) ≤ q := Int.floor_le q
  have h2 : q < (⌊q⌋ : α) + 1 := Int.lt_floor_add_one q
  unfold rne
  split_ifs with hlt heq hev
  · linarith
  · push_cast; linarith
  · have : q - (⌊q⌋ : α) ≤ 1/2 := le_of_not_lt heq
    linarith
  · push_cast; linarith

/-- An integer bound below the argument bounds the rounding. -/
theorem int_le_rne (q : α) (m : ℤ) (h : (m : α) ≤ q) : m ≤ rne q := by
  have h1 := le_rne q
  have h2 : ((m : ℤ) : α) < ((rne q + 1 : ℤ) : α) := by push_cast; linarith
  exact Int.lt_add_one_iff.mp (by exact_mod_cast h2)

/-- An integer bound above the argument bounds the rounding. -/
theorem rne_le_int (q : α) (m : ℤ) (h : q ≤ (m : α)) : rne q ≤ m := by
  have h1 := rne_le q
  have h2 : ((rne q : ℤ) : α) < ((m + 1 : ℤ) : α) := by push_cast; linarith
  exact Int.lt_add_one_iff.mp (by exact_mod_cast h2)

/-- Rounding an integer is the identity. -/
theorem rne_intCast (m : ℤ) : rne ((m : ℤ) : α) = m :=
  le_antisymm (rne_le_int _ m le_rfl) (int_le_rne _ m le_rfl)

/-- Rounding to `d` decimals fixes every value already on the grid. -/
theorem roundTo_int_div (s : ℕ) (hs : 0 < s) (m : ℤ) :
    roundTo s ((m : α) / (s : α)) = (m : α) / (s : α) := by
  have hsne : (s : α) ≠ 0 := by positivity
  unfold roundTo
  rw [div_mul_cancel₀ _ hsne, rne_intCast]

/-- Rounding stays within an enclosing integer-over-scale interval. -/
theorem roundTo_mem (s : ℕ) (hs : 0 < s) (lo hi : ℤ) (q : α)
    (h1 : (lo : α) / (s : α) ≤ q) (h2 : q ≤ (hi : α) / (s : α)) :
    (lo : α) / (s : α) ≤ roundTo s q ∧ roundTo s q ≤ (hi : α) / (s : α) := by
  have hspos : (0 : α) < (s : α) := by positivity
  have hlo : (lo : α) ≤ q * s := by
    have := (div_le_iff hspos).mp h1
    linarith
  have hhi : q * s ≤ (hi : α) := by
    have := (le_div_iff hspos).mp h2
    linarith
  constructor
  · rw [roundTo]
    apply (div_le_div_right hspos).mpr
    exact_mod_cast int_le_rne (q * s) lo hlo
  · rw [roundTo]
    apply (div_le_div_right hspos).mpr
    exact_mod_cast rne_le_int (q * s) hi hhi

/-- Rounding moves a value by at most half a grid step. -/
theorem roundTo_close (s : ℕ) (hs : 0 < s) (q : α) :
    q - 1 / (2 * s) ≤ roundTo s q ∧ roundTo s q ≤ q + 1 / (2 * s) := by
  have hspos : (0 : α) < (s : α) := by positivity
  have h1 := le_rne (q * s)
  have h2 := rne_le (q * s)
  constructor
  · rw [roundTo, le_div_iff hspos]
    have : (q - 1 / (2 * s)) * s = q * s - 1/2 := by
      field_simp
      ring
    linarith [this ▸ le_rne (q * s)]
  · rw [roundTo, div_le_iff hspos]
    have : (q + 1 / (2 * s)) * s = q * s + 1/2 := by
      field_simp
      ring
    linarith

end RoundingLemmas

/-- Monotonicity of the clamp helper in its argument. -/
theorem clamp_mono {α : Type} [LinearOrder α] {x y : α} (lo hi : α) (h : x ≤ y) :
    clamp x lo hi ≤ clamp y lo hi :=
  max_le_max le_rfl (min_le_min le_rfl h)

/-- A clamp to an interval containing the value is the identity. -/
theorem clamp_eq_self {α : Type} [LinearOrder α] {x lo hi : α} (h1 : lo ≤ x) (h2 : x ≤ hi) :
    clamp x lo hi = x := by
  unfold clamp
  rw [min_eq_right h2, max_eq_right h1]

/-- The clamp lands inside its interval whenever the interval is genuine. -/
theorem clamp_mem {α : Type} [LinearOrder α] (x : α) {lo hi : α} (h : lo ≤ hi) :
    lo ≤ clamp x lo hi ∧ clamp x lo hi ≤ hi :=
  ⟨le_max_left _ _, max_le h (min_le_left _ _)⟩

namespace RunEngine

/-- A batch whose every remaining company scores cleanly runs to the end. -/
theorem run_companies_all_ok {α ε : Type} (f : α → Except ε Unit) :
    ∀ (rest acc : List α), (∀ c ∈ rest, f c = Except.ok ()) →
      run_companies f acc rest = ⟨acc.reverse ++ rest, "success", none⟩ := by
  intro rest
  induction rest with
  | nil => intro acc _; simp [run_companies]
  | cons c tail ih =>
    intro acc hok
    have hc : f c = Except.ok () := hok c (by simp)
    have htail := ih (c :: acc) (fun x hx => hok x (by simp [hx]))
    simp [run_companies, hc, htail]

/-- The first raising company ends the batch there: everything before it is
processed, the run is `"failed"`, the exception is surfaced. -/
theorem run_companies_first_err {α ε : Type} (f : α → Except ε Unit) :
    ∀ (pre : List α) (acc : List α) (c : α) (post : List α) (e : ε),
      (∀ x ∈ pre, f x = Except.ok ()) → f c = Except.error e →
      run_companies f acc (pre ++ c :: post) = ⟨acc.reverse ++ pre, "failed", some e⟩ := by
  intro pre
  induction pre with
  | nil =>
    intro acc c post e _ hc
    simp [run_companies, hc]
  | cons p tail ih =>
    intro acc c post e hok hc
    have hp : f p = Except.ok () := hok p (by simp)
    have h2 := ih (p :: acc) c post e (fun x hx => hok x (by simp [hx])) hc
    simp only [List.cons_append, run_companies, hp, List.append_eq]
    rw [h2]
    simp

/-- The run reports success exactly when every remaining company scores. -/
theorem run_companies_success_iff {α ε : Type} (f : α → Except ε Unit) :
    ∀ (rest acc : List α),
      ((run_companies f acc rest).status = "success" ↔ ∀ c ∈ rest, f c = Except.ok ()) := by
  intro rest
  induction rest with
  | nil => intro acc; simp [run_companies]
  | cons c tail ih =>
    intro acc
    constructor
    · intro h
      cases hc : f c with
      | ok u =>
        intro x hx
        rcases List.mem_cons.mp hx with h1 | h2
        · subst h1; cases u; exact hc
        · have := (ih (c :: acc)).mp (by simpa [run_companies, hc] using h)
          exact this x h2
      | error e =>
        exfalso
        simp [run_companies, hc] at h
    · intro h
      cases u : f c with
      | ok v =>
        have := (ih (c :: acc)).mpr (fun x hx => h x (by simp [hx]))
        simpa [run_companies, u] using this
      | error e =>
        exact absurd (h c (by simp)) (by simp [u])

end RunEngine

/-- Claim C9 counterexample: two companies where the first raises.  The
batch driver (`main` in `scripts/run_scoring_engine.py`) processes no
further company, marks the run `"failed"` and surfaces the exception: the
per-company failure is not caught and does abort the rest of the batch,
contrary to the claim. -/
theorem C9_counterexample :
    RunEngine.run_batch (fun c : ℕ => if c = 1 then Except.error "boom" else Except.ok ())
      [1, 2] = RunEngine.RunOutcome.mk [] "failed" (some "boom") := by
  rfl

/-- Summing a guarded map equals summing over the filtered list. -/
theorem sum_ite_eq_sum_filter {β : Type} (l : List β) (p : β → Bool) (g : β → ℚ) :
    (l.map (fun r => if p r then g r else 0)).sum = ((l.filter p).map g).sum := by
  induction l with
  | nil => simp
  | cons x xs ih =>
    by_cases h : p x <;> simp [List.filter_cons, h, ih]

/-- Claim C5: the synergy bonus is the sum of the activated rules' magnitudes
clamped to the symmetric cap, and (for a meaningful cap) its absolute value
never exceeds the cap, no matter how many rules activate. -/
theorem C5_synergy_cap (scores_by_dim : List (String × ℚ)) (rules : List Synergy.SynergyRule)
    (cap_abs : ℚ) :
    (Synergy.compute_synergy scores_by_dim rules cap_abs).synergy_bonus
      = clamp (((rules.filter (Synergy.rule_activated scores_by_dim)).map
          Synergy.SynergyRule.magnitude).sum) (-cap_abs) cap_abs
    ∧ (0 ≤ cap_abs →
        |(Synergy.compute_synergy scores_by_dim rules cap_abs).synergy_bonus| ≤ cap_abs) := by
  constructor
  · simp only [Synergy.compute_synergy,
      sum_ite_eq_sum_filter rules (Synergy.rule_activated scores_by_dim)
        Synergy.SynergyRule.magnitude]
  · intro hcap
    apply abs_le.mpr
    constructor
    · exact le_max_left _ _
    · exact max_le (by linarith) (min_le_left _ _)

/-- Claim C5 witness: four positive rules each worth `+10` at threshold 60,
both referenced dimensions at 70, cap 15: the bonus is exactly 15. -/
theorem C5_witness :
    (Synergy.compute_synergy [("a", 70), ("b", 70)]
      (List.replicate 4 (Synergy.SynergyRule.mk "a" "b" "positive" 60 10)) 15).synergy_bonus
      = 15 := by
  rw [(C5_synergy_cap [("a", 70), ("b", 70)]
    (List.replicate 4 (Synergy.SynergyRule.mk "a" "b" "positive" 60 10)) 15).1]
  have hact : Synergy.rule_activated [("a", 70), ("b", 70)]
      (Synergy.SynergyRule.mk "a" "b" "positive" 60 10) = true := by rfl
  norm_num [List.replicate, List.filter, hact, clamp]

/-- Characterization of the factor computed by
`compute_talent_concentration`: the gate is the sample size, the selector is
HHI against the two thresholds, and the configured factor is clamped to
`[0, 1]` on the way out. -/
theorem tc_factor_formula (fc : List (String × ℕ)) (msz : ℕ) (mild severe pm ps : ℚ) :
    (TalentConcentration.compute_talent_concentration fc msz mild severe pm ps).penalty_factor
      = if (fc.map (fun p => p.2)).sum < msz then 1
        else if TalentConcentration.compute_hhi fc ≥ severe then clamp ps 0 1
        else if TalentConcentration.compute_hhi fc ≥ mild then clamp pm 0 1
        else 1 := by
  simp only [TalentConcentration.compute_talent_concentration]
  by_cases hmin : (fc.map (fun p => p.2)).sum ≥ msz
  · rw [if_neg (Nat.not_lt.mpr hmin)]
    simp only [ge_iff_le, hmin, decide_eq_true_eq, if_pos, decide_True]
    by_cases hsev : TalentConcentration.compute_hhi fc ≥ severe
    · simp [hsev]
    · by_cases hmld : TalentConcentration.compute_hhi fc ≥ mild
      · simp [hsev, hmld]
      · simp only [ge_iff_le] at hsev hmld
        simp [hsev, hmld, clamp]
  · rw [if_pos (Nat.not_le.mp hmin)]
    simp only [ge_iff_le, hmin, decide_False]
    simp [clamp]

/-- Characterization of the factor computed by `compute_talent_penalty`:
same gate and selector, with the configured factor clamped to `[0, 1]`
(the below-minimum branch returns the literal `1.0`). -/
theorem tp_factor_formula (functions : List String) (cfg : TalentPenalty.TalentPenaltyConfig) :
    (TalentPenalty.compute_talent_penalty functions cfg).penalty_factor
      = if functions.length < cfg.min_sample_size then 1
        else if (TalentPenalty.compute_hhi functions).1 ≥ cfg.hhi_threshold_severe then
          clamp cfg.penalty_factor_severe 0 1
        else if (TalentPenalty.compute_hhi functions).1 ≥ cfg.hhi_threshold_mild then
          clamp cfg.penalty_factor_mild 0 1
        else 1 := by
  simp only [TalentPenalty.compute_talent_penalty]
  by_cases hmin : functions.length < cfg.min_sample_size
  · simp [hmin]
  · simp only [hmin, if_false]
    by_cases hsev : (TalentPenalty.compute_hhi functions).1 ≥ cfg.hhi_threshold_severe
    · simp [hsev]
    · by_cases hmld : (TalentPenalty.compute_hhi functions).1 ≥ cfg.hhi_threshold_mild
      · simp [hsev, hmld]
      · simp only [ge_iff_le] at hsev hmld
        simp [hsev, hmld, clamp]

/-- Claim C6 counterexample: a single function with count 1 under
`min_sample_size = 1` and a configured severe factor of `2`: the sample
meets the minimum and HHI (`= 1`) is at the severe threshold, yet the
returned factor is `1`, not the configured severe factor `2` — the code
clamps the factor to `[0, 1]` first. -/
theorem C6_counterexample :
    (TalentConcentration.compute_talent_concentration [("a", 1)] 1
      (40/100) (70/100) (92/100) 2).penalty_factor = 1
    ∧ TalentConcentration.compute_hhi [("a", 1)] ≥ 70/100
    ∧ (1 : ℕ) ≤ 1
    ∧ (1 : ℚ) ≠ 2 := by
  refine ⟨?_, ?_, le_rfl, by norm_num⟩
  · rw [tc_factor_formula]
    norm_num [TalentConcentration.compute_hhi, clamp]
  · norm_num [TalentConcentration.compute_hhi]

/-- Claim C6 (amended): for every function-count map and configuration, the
penalty factor is `1` below the minimum sample size and otherwise the
configured severe/mild factor clamped to `[0, 1]` selected by HHI (else
`1`); in both implementations the factor always lies in `[0, 1]`. -/
theorem C6_amended_talent_penalty (fc : List (String × ℕ)) (msz : ℕ)
    (mild severe pm ps : ℚ) (functions : List String)
    (cfg : TalentPenalty.TalentPenaltyConfig) :
    ((TalentConcentration.compute_talent_concentration fc msz mild severe pm ps).penalty_factor
      = if (fc.map (fun p => p.2)).sum < msz then 1
        else if TalentConcentration.compute_hhi fc ≥ severe then clamp ps 0 1
        else if TalentConcentration.compute_hhi fc ≥ mild then clamp pm 0 1
        else 1)
    ∧ ((TalentPenalty.compute_talent_penalty functions cfg).penalty_factor
      = if functions.length < cfg.min_sample_size then 1
        else if (TalentPenalty.compute_hhi functions).1 ≥ cfg.hhi_threshold_severe then
          clamp cfg.penalty_factor_severe 0 1
        else if (TalentPenalty.compute_hhi functions).1 ≥ cfg.hhi_threshold_mild then
          clamp cfg.penalty_factor_mild 0 1
        else 1)
    ∧ (0 ≤ (TalentConcentration.compute_talent_concentration fc msz mild severe pm ps).penalty_factor
       ∧ (TalentConcentration.compute_talent_concentration fc msz mild severe pm ps).penalty_factor ≤ 1)
    ∧ (0 ≤ (TalentPenalty.compute_talent_penalty functions cfg).penalty_factor
       ∧ (TalentPenalty.compute_talent_penalty functions cfg).penalty_factor ≤ 1) := by
  have h01 : (0 : ℚ) ≤ 1 := by norm_num
  refine ⟨tc_factor_formula fc msz mild severe pm ps,
    tp_factor_formula functions cfg, ?_, ?_⟩
  · rw [tc_factor_formula]
    split_ifs <;>
      first
        | exact ⟨h01, le_rfl⟩
        | exact clamp_mem _ h01
  · rw [tp_factor_formula]
    split_ifs <;>
      first
        | exact ⟨h01, le_rfl⟩
        | exact clamp_mem _ h01

/-- The threshold selector is antitone in HHI when the severe factor is at
most the mild factor, itself at most one. -/
theorem step_selector_antitone (h1 h2 mild severe pm ps : ℚ)
    (hpm : pm ≤ 1) (hps : ps ≤ pm) (hle : h1 ≤ h2) :
    (if h2 ≥ severe then ps else if h2 ≥ mild then pm else 1)
      ≤ (if h1 ≥ severe then ps else if h1 ≥ mild then pm else 1) := by
  split_ifs <;> first | rfl | linarith

/-- Claim C8: under the default configurations of both implementations,
with both samples at or above the minimum, a larger (or equal) HHI never
yields a larger penalty factor: the talent risk adjustment is antitone in
HHI. -/
theorem C8_hhi_monotone (c1 c2 : List (String × ℕ)) (f1 f2 : List String)
    (h1 : TalentConcentration.default_min_sample_size ≤ (c1.map (fun p => p.2)).sum)
    (h2 : TalentConcentration.default_min_sample_size ≤ (c2.map (fun p => p.2)).sum)
    (hh : TalentConcentration.compute_hhi c1 ≤ TalentConcentration.compute_hhi c2)
    (g1 : (TalentPenalty.default_config "v1.0").min_sample_size ≤ f1.length)
    (g2 : (TalentPenalty.default_config "v1.0").min_sample_size ≤ f2.length)
    (gh : (TalentPenalty.compute_hhi f1).1 ≤ (TalentPenalty.compute_hhi f2).1) :
    (TalentConcentration.compute_talent_concentration c2
        TalentConcentration.default_min_sample_size TalentConcentration.default_hhi_mild
        TalentConcentration.default_hhi_severe TalentConcentration.default_penalty_mild
        TalentConcentration.default_penalty_severe).penalty_factor
      ≤ (TalentConcentration.compute_talent_concentration c1
        TalentConcentration.default_min_sample_size TalentConcentration.default_hhi_mild
        TalentConcentration.default_hhi_severe TalentConcentration.default_penalty_mild
        TalentConcentration.default_penalty_severe).penalty_factor
    ∧ (TalentPenalty.compute_talent_penalty f2 (TalentPenalty.default_config "v1.0")).penalty_factor
      ≤ (TalentPenalty.compute_talent_penalty f1 (TalentPenalty.default_config "v1.0")).penalty_factor := by
  have e92 : clamp ((92:ℚ)/100) 0 1 = 92/100 := by norm_num [clamp]
  have e80 : clamp ((80:ℚ)/100) 0 1 = 80/100 := by norm_num [clamp]
  have e95 : clamp ((95:ℚ)/100) 0 1 = 95/100 := by norm_num [clamp]
  have e85 : clamp ((85:ℚ)/100) 0 1 = 85/100 := by norm_num [clamp]
  constructor
  · rw [tc_factor_formula, tc_factor_formula]
    rw [if_neg (Nat.not_lt.mpr h1), if_neg (Nat.not_lt.mpr h2)]
    simp only [TalentConcentration.default_penalty_mild,
      TalentConcentration.default_penalty_severe, e92, e80]
    exact step_selector_antitone _ _ _ _ _ _ (by norm_num) (by norm_num) hh
  · rw [tp_factor_formula, tp_factor_formula]
    rw [if_neg (Nat.not_lt.mpr g1), if_neg (Nat.not_lt.mpr g2)]
    simp only [TalentPenalty.default_config, e95, e85]
    exact step_selector_antitone _ _ _ _ _ _ (by norm_num) (by norm_num) gh

/-- Claim C8 witness: a balanced 25-job sample (HHI `313/625`) against a
fully concentrated one (HHI `1`), and a balanced 15-function sample against
a fully concentrated one: the penalty factors do not increase. -/
theorem C8_witness :
    (TalentConcentration.compute_talent_concentration [("a", 25)]
        TalentConcentration.default_min_sample_size TalentConcentration.default_hhi_mild
        TalentConcentration.default_hhi_severe TalentConcentration.default_penalty_mild
        TalentConcentration.default_penalty_severe).penalty_factor
      ≤ (TalentConcentration.compute_talent_concentration [("a", 13), ("b", 12)]
        TalentConcentration.default_min_sample_size TalentConcentration.default_hhi_mild
        TalentConcentration.default_hhi_severe TalentConcentration.default_penalty_mild
        TalentConcentration.default_penalty_severe).penalty_factor
    ∧ (TalentPenalty.compute_talent_penalty (List.replicate 15 "a")
        (TalentPenalty.default_config "v1.0")).penalty_factor
      ≤ (TalentPenalty.compute_talent_penalty
        (List.replicate 8 "a" ++ List.replicate 7 "b")
        (TalentPenalty.default_config "v1.0")).penalty_factor := by
  apply C8_hhi_monotone
  · norm_num [TalentConcentration.default_min_sample_size]
  · norm_num [TalentConcentration.default_min_sample_size]
  · norm_num [TalentConcentration.compute_hhi]
  · norm_num [TalentPenalty.default_config]
  · norm_num [TalentPenalty.default_config]
  · have ht1 : TalentPenalty.tally (List.replicate 8 "a" ++ List.replicate 7 "b")
        = [("a", 8), ("b", 7)] := by rfl
    have ht2 : TalentPenalty.tally (List.replicate 15 "a") = [("a", 15)] := by rfl
    simp only [TalentPenalty.compute_hhi, ht1, ht2]
    norm_num

/-- A clamp into `[0, 100]` rounded at two decimals stays in `[0, 100]`. -/
theorem roundTo100_clamp_mem (q : ℚ) :
    0 ≤ roundTo 100 (clamp q 0 100) ∧ roundTo 100 (clamp q 0 100) ≤ 100 := by
  have h : 0 ≤ clamp q 0 100 ∧ clamp q 0 100 ≤ 100 := clamp_mem q (by norm_num)
  have h2 := roundTo_mem 100 (by norm_num) 0 10000 (clamp q 0 100)
    (by push_cast; linarith [h.1]) (by push_cast; linarith [h.2])
  constructor
  · have := h2.1
    push_cast at this
    linarith
  · have := h2.2
    push_cast at this
    linarith

/-- Claim C4 counterexample: with `hr_score`/`synergy_score` absent,
`synergy_bonus = 0` and `penalty_factor = 2`, the code first clamps the
penalty factor to `[0, 1]` and returns `10`, while the claim's literal
legacy formula `clamp((VR + synergy_bonus) * penalty_factor, 0, 100)`
yields `20`. -/
theorem C4_counterexample :
    (Composite.compute_composite 10 none none (60/100) (12/100)
      (some 0) (some 2)).composite_score = 10
    ∧ clamp (((10:ℚ) + 0) * 2) 0 100 = 20
    ∧ (10 : ℚ) ≠ 20 := by
  refine ⟨?_, by norm_num [clamp], by norm_num⟩
  show roundTo 100 (clamp ((clamp 10 0 100 + (some (0:ℚ)).getD 0)
    * clamp ((some (2:ℚ)).getD 1) 0 1) 0 100) = 10
  have e1 : clamp ((clamp 10 0 100 + (some (0:ℚ)).getD 0)
      * clamp ((some (2:ℚ)).getD 1) 0 1) 0 100 = 10 := by
    norm_num [clamp]
  rw [e1, show ((10:ℚ)) = ((1000 : ℤ) : ℚ) / ((100 : ℕ) : ℚ) by norm_num,
    roundTo_int_div 100 (by norm_num) 1000]

/-- Claim C4 (amended): with both `hr_score` and `synergy_score` given, the
composite is the additive blend of the clamped inputs; with either absent it
is the legacy `(VR + synergy_bonus) * penalty_factor` with `VR` pre-clamped,
`synergy_bonus` defaulting to `0` and `penalty_factor` clamped to `[0, 1]`
(defaulting to `1`); both branches are clamped to `[0, 100]` and rounded to
two decimals, so the result always lies in `[0, 100]`. -/
theorem C4_amended_composite_formula (vr : ℚ) (hr syn : Option ℚ) (a b : ℚ)
    (sb pf : Option ℚ) :
    (∀ hr0 syn0, hr = some hr0 → syn = some syn0 →
      (Composite.compute_composite vr hr syn a b sb pf).composite_score
        = roundTo 100 (clamp ((1 - clamp b 0 1) * (clamp a 0 1 * clamp vr 0 100
            + (1 - clamp a 0 1) * clamp hr0 0 100) + clamp b 0 1 * clamp syn0 0 100) 0 100))
    ∧ ((hr = none ∨ syn = none) →
      (Composite.compute_composite vr hr syn a b sb pf).composite_score
        = roundTo 100 (clamp ((clamp vr 0 100 + sb.getD 0) * clamp (pf.getD 1) 0 1) 0 100))
    ∧ (0 ≤ (Composite.compute_composite vr hr syn a b sb pf).composite_score
       ∧ (Composite.compute_composite vr hr syn a b sb pf).composite_score ≤ 100) := by
  cases hr with
  | none =>
    refine ⟨fun hr0 syn0 h1 h2 => by exact absurd h1 (by simp), fun _ => ?_, ?_⟩
    · cases syn <;> rfl
    · cases syn <;> exact roundTo100_clamp_mem _
  | some hr0 =>
    cases syn with
    | none =>
      refine ⟨fun h1 s0 h2 h3 => by exact absurd h3 (by simp), fun _ => rfl,
        roundTo100_clamp_mem _⟩
    | some syn0 =>
      refine ⟨fun h1 s1 h2 h3 => ?_, fun h => ?_, roundTo100_clamp_mem _⟩
      · cases h2
        cases h3
        rfl
      · rcases h with h | h <;> exact absurd h (by simp)

/-- Claim C4 witness: the preferred blend at `VR = 70`, `HR = 60`,
`Synergy = 50`, `alpha = 0.60`, `beta = 0.12` evaluates through the additive
formula and stays in `[0, 100]`. -/
theorem C4_witness :
    (Composite.compute_composite 70 (some 60) (some 50) (60/100) (12/100)
      none none).composite_score
      = roundTo 100 (clamp ((1 - clamp (12/100) 0 1) * (clamp (60/100) 0 1 * clamp 70 0 100
          + (1 - clamp (60/100) 0 1) * clamp 60 0 100) + clamp (12/100) 0 1 * clamp 50 0 100) 0 100)
    ∧ 0 ≤ (Composite.compute_composite 70 (some 60) (some 50) (60/100) (12/100)
        none none).composite_score
    ∧ (Composite.compute_composite 70 (some 60) (some 50) (60/100) (12/100)
        none none).composite_score ≤ 100 := by
  have h := C4_amended_composite_formula 70 (some 60) (some 50) (60/100) (12/100) none none
  exact ⟨h.1 60 50 rfl rfl, h.2.2⟩

/-- A lookup with default `0` in a nonnegative weight map is nonnegative. -/
theorem getD_nonneg (l : List (String × ℚ)) (k : String) (h : ∀ p ∈ l, 0 ≤ p.2) :
    0 ≤ getD l k 0 := by
  induction l with
  | nil => simp [getD, List.lookup]
  | cons p rest ih =>
    simp only [getD, List.lookup]
    by_cases hk : k == p.1
    · simp only [hk]
      exact h p (by simp)
    · simp only [Bool.not_eq_true] at hk
      simp only [hk]
      exact ih (fun q hq => h q (by simp [hq]))

/-- Claim C2 counterexample, in two parts.  First, `compute_vr` (the
`vr_calculator.py` variant with the coefficient-of-variation dispersion
penalty) is not monotone: raising dimension `b` from 50 to 100 under
weights `{a: 0.99, b: 0.01}` moves VR from `50` down to `287/6 ≈ 47.83`,
because the CV penalty (`8/3`) outgrows the base gain (`0.5`).  Second,
`compute_vr_score` is not monotone over arbitrary weight maps either: with
a negative weight on `b`, raising `b`'s score from 0 to 100 moves VR from
100 to 0. -/
theorem C2_counterexample :
    VRCalc.compute_vr [("a", 50), ("b", 50)] [("a", 99/100), ("b", 1/100)] 8 = 50
    ∧ VRCalc.compute_vr [("a", 50), ("b", 100)] [("a", 99/100), ("b", 1/100)] 8 = 287/6
    ∧ (287/6 : ℝ) < 50
    ∧ ((50:ℝ) ≤ 50 ∧ (50:ℝ) ≤ 100)
    ∧ VRModel.compute_vr_score [⟨"a", 50, 1, 0⟩, ⟨"b", 0, 1, 0⟩]
        [("a", 1), ("b", -(1/2))] (20/100) = 100
    ∧ VRModel.compute_vr_score [⟨"a", 50, 1, 0⟩, ⟨"b", 100, 1, 0⟩]
        [("a", 1), ("b", -(1/2))] (20/100) = 0 := by
  have hmu5 : ScoringUtils.weighted_mean [50, 50] [(1:ℝ), 1] = 50 := by
    norm_num [ScoringUtils.weighted_mean, ScoringUtils.safe_div]
  have hmu : ScoringUtils.weighted_mean [50, 100] [(1:ℝ), 1] = 75 := by
    norm_num [ScoringUtils.weighted_mean, ScoringUtils.safe_div]
  refine ⟨?_, ?_, by norm_num, ⟨le_rfl, by norm_num⟩, ?_, ?_⟩
  · have hscores : (([("a", (99/100:ℝ)), ("b", 1/100)].map (fun p => p.1)).map
        (fun d => getD [("a", (50:ℝ)), ("b", 50)] d 50)) = [50, 50] := rfl
    have hw : (([("a", (99/100:ℝ)), ("b", 1/100)].map (fun p => p.1)).map
        (fun d => getD [("a", (99/100:ℝ)), ("b", 1/100)] d 0)) = [99/100, 1/100] := rfl
    have hstd : ScoringUtils.weighted_std_dev [50, 50] [(1:ℝ), 1] = 0 := by
      simp only [ScoringUtils.weighted_std_dev, hmu5]
      norm_num [ScoringUtils.safe_div]
    have hcv : ScoringUtils.coefficient_of_variation [50, 50] [(1:ℝ), 1] = 0 := by
      simp only [ScoringUtils.coefficient_of_variation, hmu5, hstd]
      norm_num
    simp only [VRCalc.compute_vr, hscores, hw]
    norm_num [hcv, ScoringUtils.weighted_mean, ScoringUtils.safe_div, clamp]
  · have hscores : (([("a", (99/100:ℝ)), ("b", 1/100)].map (fun p => p.1)).map
        (fun d => getD [("a", (50:ℝ)), ("b", 100)] d 50)) = [50, 100] := rfl
    have hw : (([("a", (99/100:ℝ)), ("b", 1/100)].map (fun p => p.1)).map
        (fun d => getD [("a", (99/100:ℝ)), ("b", 1/100)] d 0)) = [99/100, 1/100] := rfl
    have hstd : ScoringUtils.weighted_std_dev [50, 100] [(1:ℝ), 1] = 25 := by
      simp only [ScoringUtils.weighted_std_dev, hmu]
      norm_num [ScoringUtils.safe_div]
      rw [show (625:ℝ) = 25^2 by norm_num, Real.sqrt_sq (by norm_num : (0:ℝ) ≤ 25)]
    have hcv : ScoringUtils.coefficient_of_variation [50, 100] [(1:ℝ), 1] = 1/3 := by
      simp only [ScoringUtils.coefficient_of_variation, hmu, hstd]
      norm_num
    simp only [VRCalc.compute_vr, hscores, hw]
    norm_num [hcv, ScoringUtils.weighted_mean, ScoringUtils.safe_div, clamp]
  · have hb : (List.lookup "b" [("a", (1:ℚ)), ("b", -(1/2))]).getD 0 = -(1/2) := rfl
    norm_num [VRModel.compute_vr_score, VRModel.contribution, getD, hb, clamp]
  · have hb : (List.lookup "b" [("a", (1:ℚ)), ("b", -(1/2))]).getD 0 = -(1/2) := rfl
    norm_num [VRModel.compute_vr_score, VRModel.contribution, getD, hb, clamp]

/-- Claim C2 (amended): for `compute_vr_score` (the `vr_model.py` variant,
no dispersion penalty) with a nonnegative weight map, replacing every raw
score by a greater-or-equal one — dimension names and confidences held
fixed — never decreases VR.  (The counterexample shows the property fails
for `compute_vr` and for negative weights.) -/
theorem C2_amended_vr_monotone (inputs1 inputs2 : List VRModel.DimensionInput)
    (weights : List (String × ℚ)) (floor : ℚ)
    (hw : ∀ p ∈ weights, 0 ≤ p.2)
    (hpair : List.Forall₂ (fun d1 d2 => d1.dimension = d2.dimension
      ∧ d1.confidence = d2.confidence ∧ d1.raw_score ≤ d2.raw_score) inputs1 inputs2) :
    VRModel.compute_vr_score inputs1 weights floor
      ≤ VRModel.compute_vr_score inputs2 weights floor := by
  have key : ((inputs1.map (fun d => (VRModel.contribution weights floor d).2)).sum
        = (inputs2.map (fun d => (VRModel.contribution weights floor d).2)).sum)
      ∧ ((inputs1.map (fun d => (VRModel.contribution weights floor d).1)).sum
        ≤ (inputs2.map (fun d => (VRModel.contribution weights floor d).1)).sum) := by
    induction hpair with
    | nil => simp
    | cons h t ih =>
      obtain ⟨hdim, hconf, hraw⟩ := h
      constructor
      · simp only [List.map_cons, List.sum_cons, ih.1]
        congr 1
        simp [VRModel.contribution, hdim, hconf]
      · simp only [List.map_cons, List.sum_cons]
        apply add_le_add _ ih.2
        simp only [VRModel.contribution, hdim, hconf]
        apply mul_le_mul_of_nonneg_right (clamp_mono _ _ hraw)
        apply mul_nonneg (getD_nonneg _ _ hw)
        exact le_trans (le_max_left 0 _) (le_max_left _ _)
  simp only [VRModel.compute_vr_score, List.map_map, Function.comp_def]
  rw [← key.1]
  by_cases hd : (inputs1.map (fun d => (VRModel.contribution weights floor d).2)).sum ≤ 0
  · simp [hd]
  · simp only [hd, if_false]
    apply clamp_mono
    exact (div_le_div_right (lt_of_not_le hd)).mpr key.2

/-- Claim C2 witness: raising the single dimension's raw score from 40 to
60 under weight 1, confidence 0.9, floor 0.2 does not decrease VR. -/
theorem C2_witness :
    VRModel.compute_vr_score [⟨"a", 40, 9/10, 3⟩] [("a", 1)] (20/100)
      ≤ VRModel.compute_vr_score [⟨"a", 60, 9/10, 3⟩] [("a", 1)] (20/100) := by
  apply C2_amended_vr_monotone
  · intro p hp
    simp only [List.mem_singleton] at hp
    subst hp
    norm_num
  · exact List.Forall₂.cons ⟨rfl, rfl, by norm_num⟩ List.Forall₂.nil

/-- Every interval produced by the bootstrap branch carries the
`"bootstrap"` tag, in both its percentile and its degenerate-band form. -/
theorem bootstrap_ci_tags (lf : SemConfidence.Loadings) (X : List (List ℝ)) (y : List ℝ)
    (B seed : ℕ) (alpha : ℝ) :
    ∀ r ∈ (SemConfidence.bootstrap_ci lf X y B seed alpha).1, r.method_used = "bootstrap" := by
  intro r hr
  simp only [SemConfidence.bootstrap_ci] at hr
  split at hr <;>
  · simp only [List.mem_map] at hr
    obtain ⟨i, _, rfl⟩ := hr
    rfl

/-- Every interval produced by a successful simplified-SEM attempt carries
the `"sem_simplified"` tag. -/
theorem semPath_tags (lf : SemConfidence.Loadings) (X : List (List ℝ)) (y : List ℝ)
    (rf : List SemConfidence.SEMResult × List (String × ℝ))
    (h : SemConfidence.semPath lf X y = some rf) :
    ∀ r ∈ rf.1, r.method_used = "sem_simplified" := by
  intro r hr
  unfold SemConfidence.semPath at h
  cases hlf : lf X with
  | none => rw [hlf] at h; exact absurd h (by simp)
  | some loadings =>
    rw [hlf] at h
    dsimp only [] at h
    cases hols : SemConfidence.olsFit (SemConfidence.matVec X loadings) y with
    | none => rw [hols] at h; exact absurd h (by simp)
    | some abr =>
      rw [hols] at h
      simp only [Option.some.injEq] at h
      subst h
      simp only [List.mem_map] at hr
      obtain ⟨i, _, rfl⟩ := hr
      rfl

/-- Clamping a centi-grid value to `[0, 100]` lands on the centi-grid. -/
theorem clamp_int_div_100 (m : ℤ) :
    clamp ((m : ℝ)/100) 0 100 = ((max 0 (min 10000 m) : ℤ) : ℝ)/100 := by
  have hmono : Monotone (fun x : ℝ => x / 100) :=
    fun a b hab => div_le_div_of_le_of_nonneg hab (by norm_num)
  unfold clamp
  push_cast
  rw [hmono.map_max, hmono.map_min]
  norm_num

/-- Claim C3: the SEM fallback chain is deterministic and always reports
its method.  With zero historical rows `compute_sem_confidence` returns the
`"fallback_constant_band"` record whose bounds are the observed composite
(a two-decimal value, `c = k/100`) minus and plus 5, clamped to `[0, 100]`;
with fewer than 5 total rows `compute_sem_confidence_intervals` uses the
bootstrap and tags every result `"bootstrap"`; and every result it ever
returns carries one of the two method tags. -/
theorem C3_sem_fallback_chain (lf : SemConfidence.Loadings) (cur : List ℝ) (c : ℝ)
    (yh : List ℝ) (B : ℕ) (k : ℤ) (hk : c = (k : ℝ)/100) :
    ((SemConfidence.compute_sem_confidence lf cur c [] yh B).method_used
        = "fallback_constant_band"
      ∧ (SemConfidence.compute_sem_confidence lf cur c [] yh B).lower = clamp (c - 5) 0 100
      ∧ (SemConfidence.compute_sem_confidence lf cur c [] yh B).upper = clamp (c + 5) 0 100
      ∧ (SemConfidence.compute_sem_confidence lf cur c [] yh B).standard_error = 5)
    ∧ (∀ (X : List (List ℝ)) (y : List ℝ) (alpha : ℝ) (B2 seed : ℕ), X.length < 5 →
        ∀ r ∈ (SemConfidence.compute_sem_confidence_intervals lf X y alpha B2 seed).1,
          r.method_used = "bootstrap")
    ∧ (∀ (X : List (List ℝ)) (y : List ℝ) (alpha : ℝ) (B2 seed : ℕ),
        ∀ r ∈ (SemConfidence.compute_sem_confidence_intervals lf X y alpha B2 seed).1,
          r.method_used = "sem_simplified" ∨ r.method_used = "bootstrap") := by
  have h100 : ((100 : ℕ) : ℝ) = (100 : ℝ) := by norm_num
  have hgrid : ∀ m : ℤ, roundTo 100 (clamp ((m : ℝ)/100) 0 100) = clamp ((m : ℝ)/100) 0 100 := by
    intro m
    rw [clamp_int_div_100]
    have := roundTo_int_div (α := ℝ) 100 (by norm_num) (max 0 (min 10000 m))
    rw [h100] at this
    exact this
  refine ⟨⟨rfl, ?_, ?_, rfl⟩, ?_, ?_⟩
  · have h5 : c - 5 = ((k - 500 : ℤ) : ℝ)/100 := by push_cast; rw [hk]; ring
    have hlow : (SemConfidence.compute_sem_confidence lf cur c [] yh B).lower
        = roundTo 100 (clamp (c - 5) 0 100) := rfl
    rw [hlow, h5, hgrid]
  · have h5 : c + 5 = ((k + 500 : ℤ) : ℝ)/100 := by push_cast; rw [hk]; ring
    have hup : (SemConfidence.compute_sem_confidence lf cur c [] yh B).upper
        = roundTo 100 (clamp (c + 5) 0 100) := rfl
    rw [hup, h5, hgrid]
  · intro X y alpha B2 seed hn r hr
    have : SemConfidence.compute_sem_confidence_intervals lf X y alpha B2 seed
        = SemConfidence.bootstrap_ci lf X y B2 seed alpha := by
      unfold SemConfidence.compute_sem_confidence_intervals
      rw [if_pos hn]
    rw [this] at hr
    exact bootstrap_ci_tags lf X y B2 seed alpha r hr
  · intro X y alpha B2 seed r hr
    unfold SemConfidence.compute_sem_confidence_intervals at hr
    by_cases hn : X.length < 5
    · rw [if_pos hn] at hr
      exact Or.inr (bootstrap_ci_tags lf X y B2 seed alpha r hr)
    · rw [if_neg hn] at hr
      cases hsem : SemConfidence.semPath lf X y with
      | none =>
        rw [hsem] at hr
        exact Or.inr (bootstrap_ci_tags lf X y B2 seed alpha r hr)
      | some rf =>
        rw [hsem] at hr
        exact Or.inl (semPath_tags lf X y rf hsem r hr)

/-- Claim C3 witness: composite 42 with no historical rows gives the
constant band `[37, 47]` with the `"fallback_constant_band"` tag; a
one-row matrix goes to the bootstrap tag. -/
theorem C3_witness :
    ((SemConfidence.compute_sem_confidence (fun _ => none) [] 42 [] [] 400).method_used
        = "fallback_constant_band"
      ∧ (SemConfidence.compute_sem_confidence (fun _ => none) [] 42 [] [] 400).lower
        = clamp ((42 : ℝ) - 5) 0 100
      ∧ (SemConfidence.compute_sem_confidence (fun _ => none) [] 42 [] [] 400).upper
        = clamp ((42 : ℝ) + 5) 0 100
      ∧ (SemConfidence.compute_sem_confidence (fun _ => none) [] 42 [] [] 400).standard_error
        = 5)
    ∧ (∀ (X : List (List ℝ)) (y : List ℝ) (alpha : ℝ) (B2 seed : ℕ), X.length < 5 →
        ∀ r ∈ (SemConfidence.compute_sem_confidence_intervals (fun _ => none) X y alpha B2 seed).1,
          r.method_used = "bootstrap")
    ∧ (∀ (X : List (List ℝ)) (y : List ℝ) (alpha : ℝ) (B2 seed : ℕ),
        ∀ r ∈ (SemConfidence.compute_sem_confidence_intervals (fun _ => none) X y alpha B2 seed).1,
          r.method_used = "sem_simplified" ∨ r.method_used = "bootstrap") :=
  C3_sem_fallback_chain (fun _ => none) [] 42 [] 400 4200 (by norm_num)

/-- Claim C10: the bootstrap estimator is deterministic in its arguments:
two invocations with the same matrix, vector, alpha, sample count and seed
return identical interval bounds, standard errors and method tags — the
resampling generator is derived from the seed argument alone. -/
theorem C10_bootstrap_deterministic (lf : SemConfidence.Loadings) (X : List (List ℝ))
    (y : List ℝ) (alpha : ℝ) (B : ℕ) (seed1 seed2 : ℕ) (h : seed1 = seed2) :
    SemConfidence.compute_sem_confidence_intervals lf X y alpha B seed1
      = SemConfidence.compute_sem_confidence_intervals lf X y alpha B seed2 := by
  rw [h]

/-- Claim C10 witness: two invocations at the default seed 42 coincide. -/
theorem C10_witness :
    SemConfidence.compute_sem_confidence_intervals (fun _ => none) [[60]] [55]
        SemConfidence.default_alpha 2 SemConfidence.default_seed
      = SemConfidence.compute_sem_confidence_intervals (fun _ => none) [[60]] [55]
        SemConfidence.default_alpha 2 SemConfidence.default_seed :=
  C10_bootstrap_deterministic (fun _ => none) [[60]] [55]
    SemConfidence.default_alpha 2 SemConfidence.default_seed
    SemConfidence.default_seed rfl

/-- No word-bounded pattern matches inside an empty text. -/
theorem regex_word_search_nil (p : List Char) : regex_word_search [] p = false := by
  simp only [regex_word_search]
  rw [show List.range (([] : List Char).length + 1) = [0] from rfl]
  simp [bnd, wchar_at]

/-- The keyword scanner finds nothing in the empty string. -/
theorem find_matches_empty (kws : List String) : RubricScorer.find_matches "" kws = [] := by
  simp only [RubricScorer.find_matches]
  have h : ∀ kw : String, regex_word_search ("" : String).data (lower kw).data = false := by
    intro kw
    have hd : ("" : String).data = [] := rfl
    rw [hd, regex_word_search_nil]
  simp [h]

/-- With an empty evidence text, no rubric level with a positive
keyword-match requirement can fire: the loop falls through to the
`score = 10, confidence = 0.40` default. -/
theorem score_level_loop_no_text (dim : String) (mv : ℚ)
    (crits : List RubricScorer.RubricCriteria)
    (hmin : ∀ c ∈ crits, 1 ≤ c.min_keyword_matches) :
    RubricScorer.score_level_loop dim "" mv crits
      = ⟨dim, .LEVEL_1, 10, [], 0, 40/100⟩ := by
  induction crits with
  | nil => rfl
  | cons c rest ih =>
    have hc := hmin c (by simp)
    have hm : RubricScorer.find_matches "" c.keywords = [] := find_matches_empty _
    simp only [RubricScorer.score_level_loop, hm]
    rw [if_neg]
    · exact ih (fun x hx => hmin x (by simp [hx]))
    · rintro ⟨h1, _⟩
      simp only [List.length_nil, ge_iff_le] at h1
      omega

/-- A successful lookup's pair is a member of the table. -/
theorem lookup_mem {α : Type} {l : List (String × α)} {k : String} {v : α}
    (h : List.lookup k l = some v) : (k, v) ∈ l := by
  induction l with
  | nil => simp [List.lookup] at h
  | cons p rest ih =>
    rw [List.lookup] at h
    by_cases hk : k == p.1
    · simp only [hk] at h
      have hkey : k = p.1 := eq_of_beq hk
      have hval : v = p.2 := by
        cases h
        rfl
      have hp : (k, v) = p := by
        rw [hkey, hval]
      rw [hp]
      exact List.mem_cons_self _ _
    · simp only [Bool.not_eq_true] at hk
      rw [hk] at h
      exact List.mem_cons_of_mem _ (ih h)

/-- Confidence bounds of the rubric level loop: whatever level fires (or the
fallback), the confidence lies in `[0.40, 0.95]`, provided every
quantitative threshold in the rubric is nonnegative. -/
theorem score_level_loop_conf_bounds (dim text : String) (mv : ℚ)
    (crits : List RubricScorer.RubricCriteria)
    (hthr : ∀ c ∈ crits, 0 ≤ c.quantitative_threshold) :
    2/5 ≤ (RubricScorer.score_level_loop dim text mv crits).confidence
      ∧ (RubricScorer.score_level_loop dim text mv crits).confidence ≤ 19/20 := by
  induction crits with
  | nil =>
    constructor <;> norm_num [RubricScorer.score_level_loop]
  | cons c rest ih =>
    simp only [RubricScorer.score_level_loop]
    by_cases hcond : (RubricScorer.find_matches text c.keywords).length
        ≥ c.min_keyword_matches ∧ mv ≥ c.quantitative_threshold
    · rw [if_pos hcond]
      have hL : 0 ≤ ((RubricScorer.find_matches text c.keywords).length : ℚ) :=
        Nat.cast_nonneg _
      have hmv : 0 ≤ mv := le_trans (hthr c (by simp)) hcond.2
      have hv1 : (400 : ℚ)/1000 ≤ min (95/100) (50/100
          + 8/100 * ((RubricScorer.find_matches text c.keywords).length : ℚ)
          + 30/100 * mv) := by
        apply le_min (by norm_num)
        linarith
      have hv2 : min ((95:ℚ)/100) (50/100
          + 8/100 * ((RubricScorer.find_matches text c.keywords).length : ℚ)
          + 30/100 * mv) ≤ (950 : ℚ)/1000 := le_trans (min_le_left _ _) (by norm_num)
      have hmem := roundTo_mem (α := ℚ) 1000 (by norm_num) 400 950
        (min (95/100) (50/100
          + 8/100 * ((RubricScorer.find_matches text c.keywords).length : ℚ)
          + 30/100 * mv))
        (by push_cast; linarith) (by push_cast; linarith)
      have hm1 := hmem.1
      have hm2 := hmem.2
      push_cast at hm1 hm2
      constructor
      · simp only []
        linarith
      · simp only []
        linarith
    · rw [if_neg hcond]
      exact ih (fun x hx => hthr x (by simp [hx]))

/-- Every quantitative threshold in the embedded rubric tables is
nonnegative. -/
theorem rubric_thresholds_nonneg :
    ∀ e ∈ RubricScorer.DIMENSION_RUBRICS, ∀ c ∈ e.2, 0 ≤ c.quantitative_threshold := by
  intro e he
  fin_cases he <;>
  · intro c hc
    fin_cases hc <;> norm_num

/-- Confidence bounds of `score_dimension`: always within `[0.40, 0.95]`. -/
theorem score_dimension_conf_bounds (dim text : String) (metrics : List (String × ℚ)) :
    2/5 ≤ (RubricScorer.score_dimension dim text metrics).confidence
      ∧ (RubricScorer.score_dimension dim text metrics).confidence ≤ 19/20 := by
  have hdef : RubricScorer.score_dimension dim text metrics
      = RubricScorer.score_level_loop (getD RubricScorer.FEATURE_TO_RUBRIC_DIM dim dim)
          (lower text)
          (getD metrics (getD RubricScorer.DIMENSION_METRIC_KEY
            (getD RubricScorer.FEATURE_TO_RUBRIC_DIM dim dim) "") 0)
          ((List.lookup (getD RubricScorer.FEATURE_TO_RUBRIC_DIM dim dim)
            RubricScorer.DIMENSION_RUBRICS).getD []) := rfl
  rw [hdef]
  apply score_level_loop_conf_bounds
  cases hlk : List.lookup (getD RubricScorer.FEATURE_TO_RUBRIC_DIM dim dim)
      RubricScorer.DIMENSION_RUBRICS with
  | none => simp
  | some tbl =>
    intro c hc
    simp only [Option.getD_some] at hc
    exact rubric_thresholds_nonneg _ (lookup_mem hlk) c hc

/-- Claim C7 counterexample: a feature for `data_infrastructure` with
`evidence_count = 80` and `reliability_weighted = 1` but no matched
keywords gets confidence `0.40` from the rubric fallback, while the
specification's formula
`clamp(0.40 + 0.35 * min(80/80, 1) + 0.20 * 1, 0.40, 0.95)` demands
`0.95`. -/
theorem C7_counterexample :
    ((EvidenceMapper.score_dimension_features
        [("data_infrastructure", ⟨"data_infrastructure", 0, 80, 1, []⟩)]).headD
        (EvidenceMapper.default_result "none")).confidence = 40/100
    ∧ spec_confidence_formula 80 1 = 95/100
    ∧ ((40 : ℚ)/100) ≠ 95/100 := by
  refine ⟨?_, ?_, by norm_num⟩
  · have h : ((EvidenceMapper.score_dimension_features
        [("data_infrastructure", ⟨"data_infrastructure", 0, 80, 1, []⟩)]).headD
        (EvidenceMapper.default_result "none")).confidence = clamp (40/100) 0 1 := rfl
    rw [h]
    norm_num [clamp]
  · norm_num [spec_confidence_formula, clamp]

/-- Claim C7 (amended): the dimension scorer's emitted confidence always
lies in `[0.40, 0.95]`, but it is the rubric keyword/metric confidence, not
the specification's evidence-count formula: it is unchanged under arbitrary
changes of `weighted_signal`, `evidence_count` and `reliability_weighted`
with `top_keywords` held fixed (hence trivially non-decreasing in
`evidence_count` and `reliability_weighted`). -/
theorem C7_amended_confidence (features : List (String × EvidenceMapper.DimensionFeature)) :
    (∀ r ∈ EvidenceMapper.score_dimension_features features,
      2/5 ≤ r.confidence ∧ r.confidence ≤ 19/20)
    ∧ (∀ (dim : String) (ws1 ws2 rw1 rw2 : ℚ) (ec1 ec2 : ℕ) (kws : List String),
        (EvidenceMapper.score_dimension_features
            [(dim, ⟨dim, ws1, ec1, rw1, kws⟩)]).map (fun r => r.confidence)
          = (EvidenceMapper.score_dimension_features
            [(dim, ⟨dim, ws2, ec2, rw2, kws⟩)]).map (fun r => r.confidence)) := by
  constructor
  · intro r hr
    simp only [EvidenceMapper.score_dimension_features, List.mem_map] at hr
    obtain ⟨d, _, rfl⟩ := hr
    cases hlk : List.lookup d features with
    | none =>
      simp only [hlk]
      constructor <;> norm_num [EvidenceMapper.default_result]
    | some f =>
      simp only [hlk]
      have hb := score_dimension_conf_bounds d (join_space f.top_keywords) []
      have h01 : clamp (RubricScorer.score_dimension d (join_space f.top_keywords) []).confidence 0 1
          = (RubricScorer.score_dimension d (join_space f.top_keywords) []).confidence :=
        clamp_eq_self (by linarith [hb.1]) (by linarith [hb.2])
      simp only [h01]
      exact hb
  · intro dim ws1 ws2 rw1 rw2 ec1 ec2 kws
    simp only [EvidenceMapper.score_dimension_features, List.map_map]
    apply List.map_congr_left
    intro d _
    simp only [Function.comp_apply]
    by_cases hb : d == dim
    · simp [List.lookup, hb]
    · simp only [Bool.not_eq_true] at hb
      simp [List.lookup, hb]

/-- Claim C1: the full dimension pipeline on the empty evidence list.
`map_sources_to_dimension_features` emits a (truthy) zero-valued
`DimensionFeature` for every canonical dimension, so `_default_result`
(score 50, confidence 0.50) is never reached: every dimension goes through
the rubric, which finds no keywords and falls back to score 10, confidence
0.40 — not the neutral 50 / 0.50 the claim requires. -/
theorem C1_empty_evidence_pipeline :
    EvidenceMapper.score_dimension_features
      (EvidenceMapper.map_sources_to_dimension_features
        (EvidenceMapper.build_source_payloads
          (EvidenceMapper.map_evidence_to_dimensions [])))
      = DIMENSIONS.map (fun d => ⟨d, 10, 40/100, 0, []⟩)
    ∧ (10 : ℚ) ≠ 50
    ∧ ((40 : ℚ)/100) ≠ 50/100 := by
  refine ⟨?_, by norm_num, by norm_num⟩
  have h : EvidenceMapper.score_dimension_features
      (EvidenceMapper.map_sources_to_dimension_features
        (EvidenceMapper.build_source_payloads
          (EvidenceMapper.map_evidence_to_dimensions [])))
      = DIMENSIONS.map (fun d => ⟨d, clamp 10 0 100, clamp (40/100) 0 1, 0, []⟩) := rfl
  rw [h]
  apply List.map_congr_left
  intro d _
  have e1 : clamp (10 : ℚ) 0 100 = 10 := by norm_num [clamp]
  have e2 : clamp ((40 : ℚ)/100) 0 1 = 40/100 := by norm_num [clamp]
  rw [e1, e2]

/-- Claim C9 (amended): the batch driver has no per-company catch.  The
terminal status is `"success"` exactly when every requested company scores
without raising (and then every company was processed); the first raising
company ends the run with everything before it processed, status
`"failed"`, and the exception surfaced to the caller. -/
theorem C9_amended_batch_driver {α ε : Type} (f : α → Except ε Unit) (ids : List α) :
    ((RunEngine.run_batch f ids).status = "success" ↔ ∀ c ∈ ids, f c = Except.ok ())
    ∧ ((∀ c ∈ ids, f c = Except.ok ()) → RunEngine.run_batch f ids = ⟨ids, "success", none⟩)
    ∧ (∀ (pre : List α) (c : α) (post : List α) (e : ε),
        ids = pre ++ c :: post → (∀ x ∈ pre, f x = Except.ok ()) → f c = Except.error e →
        RunEngine.run_batch f ids = ⟨pre, "failed", some e⟩) := by
  refine ⟨RunEngine.run_companies_success_iff f ids [], ?_, ?_⟩
  · intro h
    simpa using RunEngine.run_companies_all_ok f ids [] h
  · intro pre c post e hids hok hc
    subst hids
    simpa using RunEngine.run_companies_first_err f pre [] c post e hok hc

end OrgAir
